import Mathlib

/-!
Verification of the transaction execution core (`core/transaction/executor.go`,
function `RunTx`) of the minter-go-node repository, against its natural-language
specification.  The executor, its response codes, the world-state collaborator
interface and the per-type handlers are shallowly embedded below; external
collaborators (RLP decoding, signature recovery, Keccak hashing) are represented
by their observable results carried on the decoded transaction, exactly as the
specification declares them out of scope.  `big.Int` values are embedded as
`Int`; `uint64` counters as `Nat`.
-/

namespace Minter

abbrev Address := Nat

abbrev CoinSymbol := String

abbrev PubKey := List Nat

/-- `types.GetBaseCoin()`: the distinguished base-coin symbol. -/
def GetBaseCoin : CoinSymbol := "MNT"

/-- `CommissionMultiplier = big.NewInt(10e8)` = 10^9. -/
def CommissionMultiplier : Int := 1000000000

def maxTxLength : Nat := 1024
def maxPayloadLength : Nat := 128
def maxServiceDataLength : Nat := 128
def minCommission : Nat := 0
def maxCommission : Nat := 100
def unboundPeriod : Nat := 518400

/-- Registry data of a coin (`state.StateCoin.Data()`): symbol is the lookup
key, the entry stores name, outstanding volume, base-coin reserve, CRR and
creator. -/
structure CoinData where
  name : String
  volume : Int
  reserveBalance : Int
  crr : Nat
  creator : Address
deriving Repr, DecidableEq

/-- A validator candidate (`state.Candidate`): owner address, public key,
commission percentage, creation block, on/off status, and the stake map
keyed by (delegator address, coin), `none` when no such stake exists
(`GetStakeOfAddress` returns nil). -/
structure Candidate where
  candidateAddress : Address
  pubKey : PubKey
  commission : Nat
  createdAtBlock : Nat
  online : Bool
  stakes : Address → CoinSymbol → Option Int

/-- One frozen-funds entry `(delegator, candidate key, coin, value)` as added
by `StateFrozenFunds.AddFund`. -/
structure FrozenFund where
  address : Address
  candidateKey : PubKey
  coin : CoinSymbol
  value : Int
deriving Repr, DecidableEq

/-- The observable content of a decoded check (`check.Check`): coin, value,
due block, plus the results of the fallible accessors `Sender()` and
`LockPubKey()` (signature recovery is an external collaborator, so its
outcome is carried as data). -/
structure CheckData where
  coin : CoinSymbol
  value : Int
  dueBlock : Nat
  checkSender : Option Address
  lockPubKey : Option PubKey
deriving DecidableEq

/-- The world state (`state.StateDB`) restricted to the operations the
executor uses.  Partial lookups of the Go store are modelled by a total data
function plus a separate existence flag; `GetStateCoin` on an unregistered
symbol simply reads the data function, mirroring the fact that the executor
performs no existence check before calling it in some handlers. -/
structure StateDB where
  balances : Address → CoinSymbol → Int
  nonces : Address → Nat
  coinExistsSet : CoinSymbol → Bool
  coins : CoinSymbol → CoinData
  candidates : PubKey → Option Candidate
  frozenFunds : Nat → List FrozenFund
  usedChecks : CheckData → Bool

def StateDB.GetBalance (s : StateDB) (a : Address) (c : CoinSymbol) : Int :=
  s.balances a c

def StateDB.GetNonce (s : StateDB) (a : Address) : Nat :=
  s.nonces a

def StateDB.SetNonce (s : StateDB) (a : Address) (n : Nat) : StateDB :=
  { s with nonces := fun a2 => if a2 = a then n else s.nonces a2 }

def StateDB.AddBalance (s : StateDB) (a : Address) (c : CoinSymbol) (v : Int) : StateDB :=
  { s with balances := fun a2 c2 =>
      if a2 = a ∧ c2 = c then s.balances a2 c2 + v else s.balances a2 c2 }

def StateDB.SubBalance (s : StateDB) (a : Address) (c : CoinSymbol) (v : Int) : StateDB :=
  { s with balances := fun a2 c2 =>
      if a2 = a ∧ c2 = c then s.balances a2 c2 - v else s.balances a2 c2 }

def StateDB.CoinExists (s : StateDB) (c : CoinSymbol) : Bool :=
  s.coinExistsSet c

def StateDB.AddCoinVolume (s : StateDB) (c : CoinSymbol) (v : Int) : StateDB :=
  { s with coins := fun c2 =>
      if c2 = c then { s.coins c2 with volume := (s.coins c2).volume + v } else s.coins c2 }

def StateDB.SubCoinVolume (s : StateDB) (c : CoinSymbol) (v : Int) : StateDB :=
  { s with coins := fun c2 =>
      if c2 = c then { s.coins c2 with volume := (s.coins c2).volume - v } else s.coins c2 }

def StateDB.AddCoinReserve (s : StateDB) (c : CoinSymbol) (v : Int) : StateDB :=
  { s with coins := fun c2 =>
      if c2 = c then { s.coins c2 with reserveBalance := (s.coins c2).reserveBalance + v }
      else s.coins c2 }

def StateDB.SubCoinReserve (s : StateDB) (c : CoinSymbol) (v : Int) : StateDB :=
  { s with coins := fun c2 =>
      if c2 = c then { s.coins c2 with reserveBalance := (s.coins c2).reserveBalance - v }
      else s.coins c2 }

def StateDB.CreateCoin (s : StateDB) (sym : CoinSymbol) (name : String)
    (amount : Int) (crr : Nat) (reserve : Int) (creator : Address) : StateDB :=
  { s with
    coinExistsSet := fun c2 => if c2 = sym then true else s.coinExistsSet c2
    coins := fun c2 =>
      if c2 = sym then
        { name := name, volume := amount, reserveBalance := reserve, crr := crr,
          creator := creator }
      else s.coins c2 }

def StateDB.CandidateExists (s : StateDB) (pk : PubKey) : Bool :=
  (s.candidates pk).isSome

def StateDB.CreateCandidate (s : StateDB) (addr : Address) (pk : PubKey)
    (commission : Nat) (blk : Nat) (coin : CoinSymbol) (stake : Int) : StateDB :=
  { s with candidates := fun pk2 =>
      if pk2 = pk then
        some { candidateAddress := addr, pubKey := pk, commission := commission,
               createdAtBlock := blk, online := false,
               stakes := fun a c => if a = addr ∧ c = coin then some stake else none }
      else s.candidates pk2 }

def StateDB.SetCandidateOnline (s : StateDB) (pk : PubKey) : StateDB :=
  { s with candidates := fun pk2 =>
      if pk2 = pk then (s.candidates pk2).map (fun c => { c with online := true })
      else s.candidates pk2 }

def StateDB.SetCandidateOffline (s : StateDB) (pk : PubKey) : StateDB :=
  { s with candidates := fun pk2 =>
      if pk2 = pk then (s.candidates pk2).map (fun c => { c with online := false })
      else s.candidates pk2 }

/-- `StateDB.Delegate(sender, pubkey, coin, value)`: add `value` to the
existing `(sender, coin)` stake of the candidate, or create it. -/
def StateDB.Delegate (s : StateDB) (a : Address) (pk : PubKey)
    (coin : CoinSymbol) (value : Int) : StateDB :=
  { s with candidates := fun pk2 =>
      if pk2 = pk then
        (s.candidates pk2).map (fun c =>
          { c with stakes := fun a2 c2 =>
              if a2 = a ∧ c2 = coin then some ((c.stakes a2 c2).getD 0 + value)
              else c.stakes a2 c2 })
      else s.candidates pk2 }

/-- `StateDB.SubStake(sender, pubkey, coin, value)`: subtract `value` from the
`(sender, coin)` stake of the candidate. -/
def StateDB.SubStake (s : StateDB) (a : Address) (pk : PubKey)
    (coin : CoinSymbol) (value : Int) : StateDB :=
  { s with candidates := fun pk2 =>
      if pk2 = pk then
        (s.candidates pk2).map (fun c =>
          { c with stakes := fun a2 c2 =>
              if a2 = a ∧ c2 = coin then (c.stakes a2 c2).map (fun w => w - value)
              else c.stakes a2 c2 })
      else s.candidates pk2 }

/-- `GetOrNewStateFrozenFunds(block).AddFund(...)`: append an entry to the
frozen-funds bucket of the given block. -/
def StateDB.AddFrozenFund (s : StateDB) (blk : Nat) (f : FrozenFund) : StateDB :=
  { s with frozenFunds := fun b =>
      if b = blk then s.frozenFunds b ++ [f] else s.frozenFunds b }

def StateDB.IsCheckUsed (s : StateDB) (c : CheckData) : Bool :=
  s.usedChecks c

def StateDB.UseCheck (s : StateDB) (c : CheckData) : StateDB :=
  { s with usedChecks := fun c2 => if c2 = c then true else s.usedChecks c2 }

/-- Modelled from the spec: `formula.CalculateSaleReturn` (the repository's
`formula` package is not under `src/`).  The spec gives
`sale_return(vol, res, crr, coin_in) = res * (1 - (1 - coin_in/vol)^(100/crr))`;
with integer exponent `e = 100/crr` this is exactly
`res * (vol^e - (vol - coin_in)^e) / vol^e` (floored), exact whenever `crr`
divides 100 and the real value is an integer. -/
def CalculateSaleReturn (volume reserve : Int) (crr : Nat) (sellAmount : Int) : Int :=
  let e : Nat := 100 / crr
  reserve * (volume ^ e - (volume - sellAmount) ^ e) / volume ^ e

/-- Modelled from the spec: `formula.CalculatePurchaseReturn`:
`purchase_return(vol, res, crr, base_in) = vol * ((1 + base_in/res)^(crr/100) - 1)`,
realised with integer exponent `e = crr/100` (exact at `crr = 100`). -/
def CalculatePurchaseReturn (volume reserve : Int) (crr : Nat) (deposit : Int) : Int :=
  let e : Nat := crr / 100
  volume * ((reserve + deposit) ^ e - reserve ^ e) / reserve ^ e

/-- Modelled from the spec: `formula.CalculatePurchaseAmount`:
`purchase_amount(vol, res, crr, coin_out) = res * ((1 + coin_out/vol)^(100/crr) - 1)`,
realised with integer exponent `e = 100/crr` (exact when `crr` divides 100). -/
def CalculatePurchaseAmount (volume reserve : Int) (crr : Nat) (wantReceive : Int) : Int :=
  let e : Nat := 100 / crr
  reserve * ((volume + wantReceive) ^ e - volume ^ e) / volume ^ e

/-- Modelled from the spec: `formula.CalculateSaleAmount`:
`sale_amount(vol, res, crr, base_out) = vol * (1 - (1 - base_out/res)^(crr/100))`,
realised with integer exponent `e = crr/100` (exact at `crr = 100`). -/
def CalculateSaleAmount (volume reserve : Int) (crr : Nat) (wantReceiveBase : Int) : Int :=
  let e : Nat := crr / 100
  volume * (reserve ^ e - (reserve - wantReceiveBase) ^ e) / reserve ^ e

/-- The decoded type-specific payload, fused with the transaction type tag of
the Go switch (the `GetDecodedData` type assertion always matches the tag, so
one inductive models both).  For `RedeemCheck`, the result of
`check.DecodeFromBytes(data.RawCheck)` and of
`crypto.Ecrecover(Keccak256(RLP([sender])), data.Proof)` are carried as data,
since decoding and recovery are external collaborators. -/
inductive TxData where
  | declareCandidacy (address : Address) (pubKey : PubKey) (commission : Nat)
      (coin : CoinSymbol) (stake : Int)
  | setCandidateOnline (pubKey : PubKey)
  | setCandidateOffline (pubKey : PubKey)
  | delegate (pubKey : PubKey) (coin : CoinSymbol) (stake : Int)
  | unbond (pubKey : PubKey) (coin : CoinSymbol) (value : Int)
  | send (toAddr : Address) (coin : CoinSymbol) (value : Int)
  | redeemCheck (rawCheck : Option CheckData) (recoveredPubKey : Option PubKey)
  | sellCoin (coinToSell : CoinSymbol) (valueToSell : Int) (coinToBuy : CoinSymbol)
  | buyCoin (coinToBuy : CoinSymbol) (valueToBuy : Int) (coinToSell : CoinSymbol)
  | createCoin (name : String) (symbol : CoinSymbol) (initialAmount : Int)
      (crr : Nat) (initialReserve : Int)
  | unknown

/-- A decoded transaction envelope.  `senderResult` is the outcome of the
fallible `tx.Sender()` signature recovery; `gasAmount` is the value of the
per-type `tx.Gas()` method (both external to the executor). -/
structure Transaction where
  nonce : Nat
  gasPrice : Int
  data : TxData
  payloadLength : Nat
  serviceDataLength : Nat
  senderResult : Option Address
  gasAmount : Int

/-- A raw transaction as `RunTx` receives it: its byte length and the result
of `DecodeFromBytes` on it. -/
structure RawTx where
  length : Nat
  decodeResult : Option Transaction

/-- Response codes of the `code` package used by the executor. -/
inductive Code where
  | OK
  | TxTooLarge
  | DecodeError
  | TxPayloadTooLarge
  | TxServiceDataTooLarge
  | WrongNonce
  | InsufficientFunds
  | CoinNotExists
  | CoinReserveNotSufficient
  | CoinAlreadyExists
  | InvalidCoinSymbol
  | WrongCrr
  | CrossConvert
  | CandidateExists
  | CandidateNotFound
  | IsNotOwnerOfCandidate
  | IncorrectPubKey
  | WrongCommission
  | StakeNotFound
  | InsufficientStake
  | CheckExpired
  | CheckUsed
  | TooHighGasPrice
  | CheckInvalidLock
  | UnknownTransactionType
deriving Repr, DecidableEq

/-- The executor's response.  The human-readable `Log` string and the
hex-rendered address/symbol tags are omitted as non-semantic; `returnTag`
carries the numeric value of the `tx.return` tag emitted by the SellCoin and
BuyCoin handlers (`value.Bytes()`), `none` when no such tag is emitted. -/
structure Response where
  code : Code
  gasUsed : Int := 0
  gasWanted : Int := 0
  returnTag : Option Int := none
deriving Repr, DecidableEq

/-- The full outcome of one `RunTx` call: the response, the world state after
the call, and the reward pool after the call (the Go code mutates the state
and the pool in place; the embedding returns them). -/
structure ExecResult where
  resp : Response
  state : StateDB
  rewardPull : Int

/-- `tx.GasPrice * tx.Gas() * CommissionMultiplier`. -/
def commissionInBase (tx : Transaction) : Int :=
  tx.gasPrice * tx.gasAmount * CommissionMultiplier

/-- The success response shared by all handlers. -/
def okResponse (tx : Transaction) : Response :=
  { code := Code.OK, gasUsed := tx.gasAmount, gasWanted := tx.gasAmount }

/-- Handler for `TypeDeclareCandidacy` (executor.go lines 100-160). -/
def runDeclareCandidacy (context : StateDB) (isCheck : Bool) (tx : Transaction)
    (sender : Address) (rewardPull : Int) (currentBlock : Nat)
    (dAddress : Address) (dPubKey : PubKey) (dCommission : Nat)
    (dCoin : CoinSymbol) (dStake : Int) : ExecResult :=
  if dPubKey.length ≠ 32 then
    ⟨{ code := Code.IncorrectPubKey }, context, rewardPull⟩
  else if dCoin ≠ GetBaseCoin ∧
      (context.coins dCoin).reserveBalance < commissionInBase tx then
    ⟨{ code := Code.CoinReserveNotSufficient }, context, rewardPull⟩
  else
    let commission : Int :=
      if dCoin ≠ GetBaseCoin then
        CalculateSaleAmount (context.coins dCoin).volume
          (context.coins dCoin).reserveBalance (context.coins dCoin).crr
          (commissionInBase tx)
      else commissionInBase tx
    let totalTxCost := dStake + commission
    if context.GetBalance sender dCoin < totalTxCost then
      ⟨{ code := Code.InsufficientFunds }, context, rewardPull⟩
    else if context.CandidateExists dPubKey then
      ⟨{ code := Code.CandidateExists }, context, rewardPull⟩
    else if dCommission < minCommission ∨ maxCommission < dCommission then
      ⟨{ code := Code.WrongCommission }, context, rewardPull⟩
    else if isCheck then
      ⟨okResponse tx, context, rewardPull⟩
    else
      ⟨okResponse tx,
        (((context.SubBalance sender dCoin totalTxCost).CreateCandidate
            dAddress dPubKey dCommission currentBlock dCoin dStake).SetNonce
          sender tx.nonce),
        rewardPull + commission⟩

/-- Handler for `TypeSetCandidateOnline` (executor.go lines 161-200). -/
def runSetCandidateOnline (context : StateDB) (isCheck : Bool) (tx : Transaction)
    (sender : Address) (rewardPull : Int) (dPubKey : PubKey) : ExecResult :=
  let commission := commissionInBase tx
  if context.GetBalance sender GetBaseCoin < commission then
    ⟨{ code := Code.InsufficientFunds }, context, rewardPull⟩
  else
    match context.candidates dPubKey with
    | none => ⟨{ code := Code.CandidateNotFound }, context, rewardPull⟩
    | some candidate =>
      if candidate.candidateAddress ≠ sender then
        ⟨{ code := Code.IsNotOwnerOfCandidate }, context, rewardPull⟩
      else if isCheck then
        ⟨okResponse tx, context, rewardPull⟩
      else
        ⟨okResponse tx,
          (((context.SubBalance sender GetBaseCoin commission).SetCandidateOnline
              dPubKey).SetNonce sender tx.nonce),
          rewardPull + commission⟩

/-- Handler for `TypeSetCandidateOffline` (executor.go lines 201-240). -/
def runSetCandidateOffline (context : StateDB) (isCheck : Bool) (tx : Transaction)
    (sender : Address) (rewardPull : Int) (dPubKey : PubKey) : ExecResult :=
  let commission := commissionInBase tx
  if context.GetBalance sender GetBaseCoin < commission then
    ⟨{ code := Code.InsufficientFunds }, context, rewardPull⟩
  else
    match context.candidates dPubKey with
    | none => ⟨{ code := Code.CandidateNotFound }, context, rewardPull⟩
    | some candidate =>
      if candidate.candidateAddress ≠ sender then
        ⟨{ code := Code.IsNotOwnerOfCandidate }, context, rewardPull⟩
      else if isCheck then
        ⟨okResponse tx, context, rewardPull⟩
      else
        ⟨okResponse tx,
          (((context.SubBalance sender GetBaseCoin commission).SetCandidateOffline
              dPubKey).SetNonce sender tx.nonce),
          rewardPull + commission⟩

/-- Handler for `TypeDelegate` (executor.go lines 241-287). -/
def runDelegate (context : StateDB) (isCheck : Bool) (tx : Transaction)
    (sender : Address) (rewardPull : Int)
    (dPubKey : PubKey) (dCoin : CoinSymbol) (dStake : Int) : ExecResult :=
  if dCoin ≠ GetBaseCoin ∧
      (context.coins dCoin).reserveBalance < commissionInBase tx then
    ⟨{ code := Code.CoinReserveNotSufficient }, context, rewardPull⟩
  else
    let commission : Int :=
      if dCoin ≠ GetBaseCoin then
        CalculateSaleAmount (context.coins dCoin).volume
          (context.coins dCoin).reserveBalance (context.coins dCoin).crr
          (commissionInBase tx)
      else commissionInBase tx
    let totalTxCost := dStake + commission
    if context.GetBalance sender dCoin < totalTxCost then
      ⟨{ code := Code.InsufficientFunds }, context, rewardPull⟩
    else if context.CandidateExists dPubKey = false then
      ⟨{ code := Code.CandidateNotFound }, context, rewardPull⟩
    else if isCheck then
      ⟨okResponse tx, context, rewardPull⟩
    else
      ⟨okResponse tx,
        (((context.SubBalance sender dCoin totalTxCost).Delegate sender dPubKey
            dCoin dStake).SetNonce sender tx.nonce),
        rewardPull + commission⟩

/-- Handler for `TypeUnbond` (executor.go lines 288-339). -/
def runUnbond (context : StateDB) (isCheck : Bool) (tx : Transaction)
    (sender : Address) (rewardPull : Int) (currentBlock : Nat)
    (dPubKey : PubKey) (dCoin : CoinSymbol) (dValue : Int) : ExecResult :=
  let commission := commissionInBase tx
  if context.GetBalance sender GetBaseCoin < commission then
    ⟨{ code := Code.InsufficientFunds }, context, rewardPull⟩
  else
    match context.candidates dPubKey with
    | none => ⟨{ code := Code.CandidateNotFound }, context, rewardPull⟩
    | some candidate =>
      match candidate.stakes sender dCoin with
      | none => ⟨{ code := Code.StakeNotFound }, context, rewardPull⟩
      | some stakeValue =>
        if stakeValue < dValue then
          ⟨{ code := Code.InsufficientStake }, context, rewardPull⟩
        else if isCheck then
          ⟨okResponse tx, context, rewardPull⟩
        else
          ⟨okResponse tx,
            (((((context.SubBalance sender GetBaseCoin commission).SubStake sender
                  dPubKey dCoin dValue).AddFrozenFund (currentBlock + unboundPeriod)
                ⟨sender, dPubKey, dCoin, dValue⟩).SetNonce sender tx.nonce)),
            rewardPull + commission⟩

/-- Handler for `TypeSend` (executor.go lines 340-401). -/
def runSend (context : StateDB) (isCheck : Bool) (tx : Transaction)
    (sender : Address) (rewardPull : Int)
    (dTo : Address) (dCoin : CoinSymbol) (dValue : Int) : ExecResult :=
  if context.CoinExists dCoin = false then
    ⟨{ code := Code.CoinNotExists }, context, rewardPull⟩
  else if dCoin ≠ GetBaseCoin ∧
      (context.coins dCoin).reserveBalance < commissionInBase tx then
    ⟨{ code := Code.CoinReserveNotSufficient }, context, rewardPull⟩
  else
    let commission : Int :=
      if dCoin ≠ GetBaseCoin then
        CalculateSaleAmount (context.coins dCoin).volume
          (context.coins dCoin).reserveBalance (context.coins dCoin).crr
          (commissionInBase tx)
      else commissionInBase tx
    let totalTxCost := dValue + commission
    if context.GetBalance sender dCoin < totalTxCost then
      ⟨{ code := Code.InsufficientFunds }, context, rewardPull⟩
    else if isCheck then
      ⟨okResponse tx, context, rewardPull⟩
    else
      let s1 :=
        if dCoin ≠ GetBaseCoin then
          (context.SubCoinVolume dCoin commission).SubCoinReserve dCoin
            (commissionInBase tx)
        else context
      ⟨okResponse tx,
        (((s1.SubBalance sender dCoin totalTxCost).AddBalance dTo dCoin
            dValue).SetNonce sender tx.nonce),
        rewardPull + commissionInBase tx⟩

/-- Handler for `TypeRedeemCheck` (executor.go lines 402-521).  Note: unlike
every other handler that converts the fee through the bonding curve, this one
performs no reserve-sufficiency check before calling `CalculateSaleAmount`. -/
def runRedeemCheck (context : StateDB) (isCheck : Bool) (tx : Transaction)
    (sender : Address) (rewardPull : Int) (currentBlock : Nat)
    (rawCheck : Option CheckData) (recoveredPubKey : Option PubKey) : ExecResult :=
  match rawCheck with
  | none => ⟨{ code := Code.DecodeError }, context, rewardPull⟩
  | some decodedCheck =>
    match decodedCheck.checkSender with
    | none => ⟨{ code := Code.DecodeError }, context, rewardPull⟩
    | some checkSender =>
      if context.CoinExists decodedCheck.coin = false then
        ⟨{ code := Code.CoinNotExists }, context, rewardPull⟩
      else if decodedCheck.dueBlock < currentBlock then
        ⟨{ code := Code.CheckExpired }, context, rewardPull⟩
      else if context.IsCheckUsed decodedCheck then
        ⟨{ code := Code.CheckUsed }, context, rewardPull⟩
      else if 1 < tx.gasPrice then
        ⟨{ code := Code.TooHighGasPrice }, context, rewardPull⟩
      else
        match decodedCheck.lockPubKey with
        | none => ⟨{ code := Code.DecodeError }, context, rewardPull⟩
        | some lockPublicKey =>
          match recoveredPubKey with
          | none => ⟨{ code := Code.DecodeError }, context, rewardPull⟩
          | some pub =>
            if lockPublicKey ≠ pub then
              ⟨{ code := Code.CheckInvalidLock }, context, rewardPull⟩
            else
              let commission : Int :=
                if decodedCheck.coin ≠ GetBaseCoin then
                  CalculateSaleAmount (context.coins decodedCheck.coin).volume
                    (context.coins decodedCheck.coin).reserveBalance
                    (context.coins decodedCheck.coin).crr (commissionInBase tx)
                else commissionInBase tx
              let totalTxCost := decodedCheck.value + commission
              if context.GetBalance checkSender decodedCheck.coin < totalTxCost then
                ⟨{ code := Code.InsufficientFunds }, context, rewardPull⟩
              else if isCheck then
                ⟨okResponse tx, context, rewardPull⟩
              else
                let s0 := context.UseCheck decodedCheck
                let s1 :=
                  if decodedCheck.coin ≠ GetBaseCoin then
                    (s0.SubCoinVolume decodedCheck.coin commission).SubCoinReserve
                      decodedCheck.coin (commissionInBase tx)
                  else s0
                ⟨okResponse tx,
                  (((s1.SubBalance checkSender decodedCheck.coin
                      totalTxCost).AddBalance sender decodedCheck.coin
                      decodedCheck.value).SetNonce sender tx.nonce),
                  rewardPull + commissionInBase tx⟩

/-- Handler for `TypeSellCoin` (executor.go lines 522-635).  In deliver mode
the commission is removed from the sell coin's volume and reserve before the
trade value is computed, so the trade is priced against the post-fee
registry entry; in check mode it is priced against the entry as given. -/
def runSellCoin (context : StateDB) (isCheck : Bool) (tx : Transaction)
    (sender : Address) (rewardPull : Int)
    (coinToSell : CoinSymbol) (valueToSell : Int) (coinToBuy : CoinSymbol) :
    ExecResult :=
  if coinToSell = coinToBuy then
    ⟨{ code := Code.CrossConvert }, context, rewardPull⟩
  else if context.CoinExists coinToSell = false then
    ⟨{ code := Code.CoinNotExists }, context, rewardPull⟩
  else if context.CoinExists coinToBuy = false then
    ⟨{ code := Code.CoinNotExists }, context, rewardPull⟩
  else if coinToSell ≠ GetBaseCoin ∧
      (context.coins coinToSell).reserveBalance < commissionInBase tx then
    ⟨{ code := Code.CoinReserveNotSufficient }, context, rewardPull⟩
  else
    let commission : Int :=
      if coinToSell ≠ GetBaseCoin then
        CalculateSaleAmount (context.coins coinToSell).volume
          (context.coins coinToSell).reserveBalance
          (context.coins coinToSell).crr (commissionInBase tx)
      else commissionInBase tx
    let totalTxCost := valueToSell + commission
    if context.GetBalance sender coinToSell < totalTxCost then
      ⟨{ code := Code.InsufficientFunds }, context, rewardPull⟩
    else
      let s1 :=
        if isCheck then context
        else
          let sa := context.SubBalance sender coinToSell totalTxCost
          if coinToSell ≠ GetBaseCoin then
            (sa.SubCoinVolume coinToSell commission).SubCoinReserve coinToSell
              (commissionInBase tx)
          else sa
      let p1 := if isCheck then rewardPull else rewardPull + commissionInBase tx
      if coinToSell = GetBaseCoin then
        let coin := s1.coins coinToBuy
        let value := CalculatePurchaseReturn coin.volume coin.reserveBalance
          coin.crr valueToSell
        let s2 :=
          if isCheck then s1
          else (s1.AddCoinVolume coinToBuy value).AddCoinReserve coinToBuy
            valueToSell
        let s3 :=
          if isCheck then s2
          else (s2.AddBalance sender coinToBuy value).SetNonce sender tx.nonce
        ⟨{ code := Code.OK, gasUsed := tx.gasAmount, gasWanted := tx.gasAmount,
           returnTag := some value }, s3, p1⟩
      else if coinToBuy = GetBaseCoin then
        let coin := s1.coins coinToSell
        let value := CalculateSaleReturn coin.volume coin.reserveBalance
          coin.crr valueToSell
        let s2 :=
          if isCheck then s1
          else (s1.SubCoinVolume coinToSell valueToSell).SubCoinReserve coinToSell
            value
        let s3 :=
          if isCheck then s2
          else (s2.AddBalance sender coinToBuy value).SetNonce sender tx.nonce
        ⟨{ code := Code.OK, gasUsed := tx.gasAmount, gasWanted := tx.gasAmount,
           returnTag := some value }, s3, p1⟩
      else
        let coinFrom := s1.coins coinToSell
        let coinTo := s1.coins coinToBuy
        let basecoinValue := CalculateSaleReturn coinFrom.volume
          coinFrom.reserveBalance coinFrom.crr valueToSell
        let value := CalculatePurchaseReturn coinTo.volume coinTo.reserveBalance
          coinTo.crr basecoinValue
        let s2 :=
          if isCheck then s1
          else
            (((s1.AddCoinVolume coinToBuy value).SubCoinVolume coinToSell
                valueToSell).AddCoinReserve coinToBuy
              basecoinValue).SubCoinReserve coinToSell basecoinValue
        let s3 :=
          if isCheck then s2
          else (s2.AddBalance sender coinToBuy value).SetNonce sender tx.nonce
        ⟨{ code := Code.OK, gasUsed := tx.gasAmount, gasWanted := tx.gasAmount,
           returnTag := some value }, s3, p1⟩

/-- Common tail of the BuyCoin handler after its per-case section (executor.go
lines 735-762): commission collection, crediting the bought coin, nonce. -/
def runBuyCoinFinish (context : StateDB) (isCheck : Bool) (tx : Transaction)
    (sender : Address) (rewardPull : Int)
    (coinToSell coinToBuy : CoinSymbol) (commission value : Int)
    (s1 : StateDB) : ExecResult :=
  if isCheck then
    ⟨{ code := Code.OK, gasUsed := tx.gasAmount, gasWanted := tx.gasAmount,
       returnTag := some value }, context, rewardPull⟩
  else
    let s2 := s1.SubBalance sender coinToSell commission
    let s3 :=
      if coinToSell ≠ GetBaseCoin then
        (s2.SubCoinVolume coinToSell commission).SubCoinReserve coinToSell
          (commissionInBase tx)
      else s2
    ⟨{ code := Code.OK, gasUsed := tx.gasAmount, gasWanted := tx.gasAmount,
       returnTag := some value },
      ((s3.AddBalance sender coinToBuy value).SetNonce sender tx.nonce),
      rewardPull + commissionInBase tx⟩

/-- Handler for `TypeBuyCoin` (executor.go lines 636-762). -/
def runBuyCoin (context : StateDB) (isCheck : Bool) (tx : Transaction)
    (sender : Address) (rewardPull : Int)
    (coinToBuy : CoinSymbol) (valueToBuy : Int) (coinToSell : CoinSymbol) :
    ExecResult :=
  if coinToSell = coinToBuy then
    ⟨{ code := Code.CrossConvert }, context, rewardPull⟩
  else if context.CoinExists coinToSell = false then
    ⟨{ code := Code.CoinNotExists }, context, rewardPull⟩
  else if context.CoinExists coinToBuy = false then
    ⟨{ code := Code.CoinNotExists }, context, rewardPull⟩
  else if coinToSell ≠ GetBaseCoin ∧
      (context.coins coinToSell).reserveBalance < commissionInBase tx then
    ⟨{ code := Code.CoinReserveNotSufficient }, context, rewardPull⟩
  else
    let commission : Int :=
      if coinToSell ≠ GetBaseCoin then
        CalculateSaleAmount (context.coins coinToSell).volume
          (context.coins coinToSell).reserveBalance
          (context.coins coinToSell).crr (commissionInBase tx)
      else commissionInBase tx
    if coinToSell = GetBaseCoin then
      let coin := context.coins coinToBuy
      let value := CalculatePurchaseAmount coin.volume coin.reserveBalance
        coin.crr valueToBuy
      if context.GetBalance sender coinToSell < value + commission then
        ⟨{ code := Code.InsufficientFunds }, context, rewardPull⟩
      else
        let s1 :=
          if isCheck then context
          else ((context.SubBalance sender coinToSell value).AddCoinVolume
              coinToBuy valueToBuy).AddCoinReserve coinToBuy value
        runBuyCoinFinish context isCheck tx sender rewardPull coinToSell coinToBuy
          commission value s1
    else if coinToBuy = GetBaseCoin then
      let coin := context.coins coinToSell
      let value := CalculateSaleAmount coin.volume coin.reserveBalance coin.crr
        valueToBuy
      if context.GetBalance sender coinToSell < value + commission then
        ⟨{ code := Code.InsufficientFunds }, context, rewardPull⟩
      else
        let s1 :=
          if isCheck then context
          else ((context.SubBalance sender coinToSell value).SubCoinVolume
              coinToSell value).SubCoinReserve coinToSell valueToBuy
        runBuyCoinFinish context isCheck tx sender rewardPull coinToSell coinToBuy
          commission value s1
    else
      let coinFrom := context.coins coinToSell
      let coinTo := context.coins coinToBuy
      let baseCoinNeeded := CalculatePurchaseAmount coinTo.volume
        coinTo.reserveBalance coinTo.crr valueToBuy
      let value := CalculateSaleAmount coinFrom.volume coinFrom.reserveBalance
        coinFrom.crr baseCoinNeeded
      if context.GetBalance sender coinToSell < value + commission then
        ⟨{ code := Code.InsufficientFunds }, context, rewardPull⟩
      else
        let s1 :=
          if isCheck then context
          else
            ((((context.SubBalance sender coinToSell value).AddCoinVolume
                  coinToBuy valueToBuy).SubCoinVolume coinToSell
                value).AddCoinReserve coinToBuy
              baseCoinNeeded).SubCoinReserve coinToSell baseCoinNeeded
        runBuyCoinFinish context isCheck tx sender rewardPull coinToSell coinToBuy
          commission value s1

/-- The coin-symbol regular expression `^[A-Z0-9]{3,10}$`. -/
def symbolMatches (s : String) : Bool :=
  decide (3 ≤ s.length) && decide (s.length ≤ 10) &&
    s.toList.all (fun c =>
      (decide ('A' ≤ c) && decide (c ≤ 'Z')) ||
      (decide ('0' ≤ c) && decide (c ≤ '9')))

/-- The CreateCoin symbol-length surcharge table (executor.go lines 776-792),
in bips before the 10^18 scaling. -/
def symbolPrice (lettersCount : Nat) : Int :=
  match lettersCount with
  | 3 => 1000000
  | 4 => 100000
  | 5 => 10000
  | 6 => 1000
  | 7 => 100
  | 8 => 10
  | _ => 0

/-- Handler for `TypeCreateCoin` (executor.go lines 763-840). -/
def runCreateCoin (context : StateDB) (isCheck : Bool) (tx : Transaction)
    (sender : Address) (rewardPull : Int)
    (dName : String) (dSymbol : CoinSymbol) (dInitialAmount : Int)
    (dCrr : Nat) (dInitialReserve : Int) : ExecResult :=
  if symbolMatches dSymbol = false then
    ⟨{ code := Code.InvalidCoinSymbol }, context, rewardPull⟩
  else
    let commission := commissionInBase tx + 10 ^ 18 * symbolPrice dSymbol.length
    let totalTxCost := dInitialReserve + commission
    if context.GetBalance sender GetBaseCoin < totalTxCost then
      ⟨{ code := Code.InsufficientFunds }, context, rewardPull⟩
    else if context.CoinExists dSymbol then
      ⟨{ code := Code.CoinAlreadyExists }, context, rewardPull⟩
    else if dCrr < 10 ∨ 100 < dCrr then
      ⟨{ code := Code.WrongCrr }, context, rewardPull⟩
    else if isCheck then
      ⟨okResponse tx, context, rewardPull⟩
    else
      ⟨okResponse tx,
        ((((context.SubBalance sender GetBaseCoin totalTxCost).CreateCoin dSymbol
              dName dInitialAmount dCrr dInitialReserve sender).AddBalance sender
            dSymbol dInitialAmount).SetNonce sender tx.nonce),
        rewardPull + commission⟩

/-- Dispatch on the transaction type tag (the Go `switch tx.Type`). -/
def runTxData (context : StateDB) (isCheck : Bool) (tx : Transaction)
    (sender : Address) (rewardPull : Int) (currentBlock : Nat) : ExecResult :=
  match tx.data with
  | .declareCandidacy a pk cm coin st =>
    runDeclareCandidacy context isCheck tx sender rewardPull currentBlock a pk cm
      coin st
  | .setCandidateOnline pk =>
    runSetCandidateOnline context isCheck tx sender rewardPull pk
  | .setCandidateOffline pk =>
    runSetCandidateOffline context isCheck tx sender rewardPull pk
  | .delegate pk coin st =>
    runDelegate context isCheck tx sender rewardPull pk coin st
  | .unbond pk coin v =>
    runUnbond context isCheck tx sender rewardPull currentBlock pk coin v
  | .send toAddr coin v =>
    runSend context isCheck tx sender rewardPull toAddr coin v
  | .redeemCheck rc rp =>
    runRedeemCheck context isCheck tx sender rewardPull currentBlock rc rp
  | .sellCoin cs v cb =>
    runSellCoin context isCheck tx sender rewardPull cs v cb
  | .buyCoin cb v cs =>
    runBuyCoin context isCheck tx sender rewardPull cb v cs
  | .createCoin nm sym ia crr ir =>
    runCreateCoin context isCheck tx sender rewardPull nm sym ia crr ir
  | .unknown =>
    ⟨{ code := Code.UnknownTransactionType }, context, rewardPull⟩

/-- The executor `RunTx(context, isCheck, rawTx, rewardPull, currentBlock)`
(executor.go lines 48-846): envelope checks, decode, sender recovery, the
deliver-only nonce check, then per-type dispatch. -/
def RunTx (context : StateDB) (isCheck : Bool) (rawTx : RawTx)
    (rewardPull : Int) (currentBlock : Nat) : ExecResult :=
  if maxTxLength < rawTx.length then
    ⟨{ code := Code.TxTooLarge }, context, rewardPull⟩
  else
    match rawTx.decodeResult with
    | none => ⟨{ code := Code.DecodeError }, context, rewardPull⟩
    | some tx =>
      if maxPayloadLength < tx.payloadLength then
        ⟨{ code := Code.TxPayloadTooLarge }, context, rewardPull⟩
      else if maxServiceDataLength < tx.serviceDataLength then
        ⟨{ code := Code.TxServiceDataTooLarge }, context, rewardPull⟩
      else
        match tx.senderResult with
        | none => ⟨{ code := Code.DecodeError }, context, rewardPull⟩
        | some sender =>
          if isCheck = false ∧ context.GetNonce sender + 1 ≠ tx.nonce then
            ⟨{ code := Code.WrongNonce }, context, rewardPull⟩
          else
            runTxData context isCheck tx sender rewardPull currentBlock



theorem runDeclareCandidacy_check (context : StateDB) (tx : Transaction) (sender : Address)
    (pool : Int) (blk : Nat) (a : Address) (pk : PubKey) (cm : Nat)
    (coin : CoinSymbol) (st : Int) :
    (runDeclareCandidacy context true tx sender pool blk a pk cm coin st).state = context ∧
    (runDeclareCandidacy context true tx sender pool blk a pk cm coin st).rewardPull = pool := by
  unfold runDeclareCandidacy
  simp only [eq_self_iff_true, if_true]
  repeat' split
  all_goals exact ⟨rfl, rfl⟩

theorem runSetCandidateOnline_check (context : StateDB) (tx : Transaction) (sender : Address)
    (pool : Int) (pk : PubKey) :
    (runSetCandidateOnline context true tx sender pool pk).state = context ∧
    (runSetCandidateOnline context true tx sender pool pk).rewardPull = pool := by
  unfold runSetCandidateOnline
  simp only [eq_self_iff_true, if_true]
  repeat' split
  all_goals exact ⟨rfl, rfl⟩

theorem runSetCandidateOffline_check (context : StateDB) (tx : Transaction) (sender : Address)
    (pool : Int) (pk : PubKey) :
    (runSetCandidateOffline context true tx sender pool pk).state = context ∧
    (runSetCandidateOffline context true tx sender pool pk).rewardPull = pool := by
  unfold runSetCandidateOffline
  simp only [eq_self_iff_true, if_true]
  repeat' split
  all_goals exact ⟨rfl, rfl⟩

theorem runDelegate_check (context : StateDB) (tx : Transaction) (sender : Address)
    (pool : Int) (pk : PubKey) (coin : CoinSymbol) (st : Int) :
    (runDelegate context true tx sender pool pk coin st).state = context ∧
    (runDelegate context true tx sender pool pk coin st).rewardPull = pool := by
  unfold runDelegate
  simp only [eq_self_iff_true, if_true]
  repeat' split
  all_goals exact ⟨rfl, rfl⟩

theorem runUnbond_check (context : StateDB) (tx : Transaction) (sender : Address)
    (pool : Int) (blk : Nat) (pk : PubKey) (coin : CoinSymbol) (v : Int) :
    (runUnbond context true tx sender pool blk pk coin v).state = context ∧
    (runUnbond context true tx sender pool blk pk coin v).rewardPull = pool := by
  unfold runUnbond
  simp only [eq_self_iff_true, if_true]
  repeat' split
  all_goals exact ⟨rfl, rfl⟩

theorem runSend_check (context : StateDB) (tx : Transaction) (sender : Address)
    (pool : Int) (toAddr : Address) (coin : CoinSymbol) (v : Int) :
    (runSend context true tx sender pool toAddr coin v).state = context ∧
    (runSend context true tx sender pool toAddr coin v).rewardPull = pool := by
  unfold runSend
  simp only [eq_self_iff_true, if_true]
  repeat' split
  all_goals exact ⟨rfl, rfl⟩

theorem runRedeemCheck_check (context : StateDB) (tx : Transaction) (sender : Address)
    (pool : Int) (blk : Nat) (rc : Option CheckData) (rp : Option PubKey) :
    (runRedeemCheck context true tx sender pool blk rc rp).state = context ∧
    (runRedeemCheck context true tx sender pool blk rc rp).rewardPull = pool := by
  unfold runRedeemCheck
  simp only [eq_self_iff_true, if_true]
  repeat' split
  all_goals exact ⟨rfl, rfl⟩

theorem runSellCoin_check (context : StateDB) (tx : Transaction) (sender : Address)
    (pool : Int) (cs : CoinSymbol) (v : Int) (cb : CoinSymbol) :
    (runSellCoin context true tx sender pool cs v cb).state = context ∧
    (runSellCoin context true tx sender pool cs v cb).rewardPull = pool := by
  unfold runSellCoin
  simp only [eq_self_iff_true, if_true]
  repeat' split
  all_goals exact ⟨rfl, rfl⟩

theorem runBuyCoin_check (context : StateDB) (tx : Transaction) (sender : Address)
    (pool : Int) (cb : CoinSymbol) (v : Int) (cs : CoinSymbol) :
    (runBuyCoin context true tx sender pool cb v cs).state = context ∧
    (runBuyCoin context true tx sender pool cb v cs).rewardPull = pool := by
  unfold runBuyCoin runBuyCoinFinish
  simp only [eq_self_iff_true, if_true]
  repeat' split
  all_goals exact ⟨rfl, rfl⟩

theorem runCreateCoin_check (context : StateDB) (tx : Transaction) (sender : Address)
    (pool : Int) (nm : String) (sym : CoinSymbol) (ia : Int) (crr : Nat) (ir : Int) :
    (runCreateCoin context true tx sender pool nm sym ia crr ir).state = context ∧
    (runCreateCoin context true tx sender pool nm sym ia crr ir).rewardPull = pool := by
  unfold runCreateCoin
  simp only [eq_self_iff_true, if_true]
  repeat' split
  all_goals exact ⟨rfl, rfl⟩

/-- Claim C1: in check mode, `RunTx` leaves the world state (balances, coins,
candidates, frozen funds, used checks, and every account nonce) and the
reward pool exactly as they were, for every raw transaction, state, block
height and reward pool, regardless of the response code. -/
theorem runTx_check_mode_no_mutation (context : StateDB) (rawTx : RawTx)
    (pool : Int) (blk : Nat) :
    (RunTx context true rawTx pool blk).state = context ∧
    (RunTx context true rawTx pool blk).rewardPull = pool ∧
    (∀ a : Address, (RunTx context true rawTx pool blk).state.nonces a = context.nonces a) := by
  have main : (RunTx context true rawTx pool blk).state = context ∧
      (RunTx context true rawTx pool blk).rewardPull = pool := by
    obtain ⟨len, dec⟩ := rawTx
    unfold RunTx
    split
    · exact ⟨rfl, rfl⟩
    rcases dec with _ | tx
    · exact ⟨rfl, rfl⟩
    dsimp only
    split
    · exact ⟨rfl, rfl⟩
    split
    · exact ⟨rfl, rfl⟩
    obtain ⟨n, gp, d, pl, sd, sr, g⟩ := tx
    rcases sr with _ | sender
    · exact ⟨rfl, rfl⟩
    dsimp only
    split
    · exact ⟨rfl, rfl⟩
    unfold runTxData
    cases d
    case declareCandidacy => exact runDeclareCandidacy_check ..
    case setCandidateOnline => exact runSetCandidateOnline_check ..
    case setCandidateOffline => exact runSetCandidateOffline_check ..
    case delegate => exact runDelegate_check ..
    case unbond => exact runUnbond_check ..
    case send => exact runSend_check ..
    case redeemCheck => exact runRedeemCheck_check ..
    case sellCoin => exact runSellCoin_check ..
    case buyCoin => exact runBuyCoin_check ..
    case createCoin => exact runCreateCoin_check ..
    case unknown => exact ⟨rfl, rfl⟩
  exact ⟨main.1, main.2, fun a => by rw [main.1]⟩




theorem runDeclareCandidacy_deliver_err (context : StateDB) (tx : Transaction) (sender : Address)
    (pool : Int) (blk : Nat) (a : Address) (pk : PubKey) (cm : Nat)
    (coin : CoinSymbol) (st : Int) :
    (runDeclareCandidacy context false tx sender pool blk a pk cm coin st).resp.code ≠ Code.OK →
    (runDeclareCandidacy context false tx sender pool blk a pk cm coin st).state = context ∧
    (runDeclareCandidacy context false tx sender pool blk a pk cm coin st).rewardPull = pool := by
  unfold runDeclareCandidacy
  simp only [Bool.false_eq_true, if_false]
  repeat' split
  all_goals first
    | exact fun h => absurd rfl h
    | exact fun _ => ⟨rfl, rfl⟩

theorem runSetCandidateOnline_deliver_err (context : StateDB) (tx : Transaction) (sender : Address)
    (pool : Int) (pk : PubKey) :
    (runSetCandidateOnline context false tx sender pool pk).resp.code ≠ Code.OK →
    (runSetCandidateOnline context false tx sender pool pk).state = context ∧
    (runSetCandidateOnline context false tx sender pool pk).rewardPull = pool := by
  unfold runSetCandidateOnline
  simp only [Bool.false_eq_true, if_false]
  repeat' split
  all_goals first
    | exact fun h => absurd rfl h
    | exact fun _ => ⟨rfl, rfl⟩

theorem runSetCandidateOffline_deliver_err (context : StateDB) (tx : Transaction) (sender : Address)
    (pool : Int) (pk : PubKey) :
    (runSetCandidateOffline context false tx sender pool pk).resp.code ≠ Code.OK →
    (runSetCandidateOffline context false tx sender pool pk).state = context ∧
    (runSetCandidateOffline context false tx sender pool pk).rewardPull = pool := by
  unfold runSetCandidateOffline
  simp only [Bool.false_eq_true, if_false]
  repeat' split
  all_goals first
    | exact fun h => absurd rfl h
    | exact fun _ => ⟨rfl, rfl⟩

theorem runDelegate_deliver_err (context : StateDB) (tx : Transaction) (sender : Address)
    (pool : Int) (pk : PubKey) (coin : CoinSymbol) (st : Int) :
    (runDelegate context false tx sender pool pk coin st).resp.code ≠ Code.OK →
    (runDelegate context false tx sender pool pk coin st).state = context ∧
    (runDelegate context false tx sender pool pk coin st).rewardPull = pool := by
  unfold runDelegate
  simp only [Bool.false_eq_true, if_false]
  repeat' split
  all_goals first
    | exact fun h => absurd rfl h
    | exact fun _ => ⟨rfl, rfl⟩

theorem runUnbond_deliver_err (context : StateDB) (tx : Transaction) (sender : Address)
    (pool : Int) (blk : Nat) (pk : PubKey) (coin : CoinSymbol) (v : Int) :
    (runUnbond context false tx sender pool blk pk coin v).resp.code ≠ Code.OK →
    (runUnbond context false tx sender pool blk pk coin v).state = context ∧
    (runUnbond context false tx sender pool blk pk coin v).rewardPull = pool := by
  unfold runUnbond
  simp only [Bool.false_eq_true, if_false]
  repeat' split
  all_goals first
    | exact fun h => absurd rfl h
    | exact fun _ => ⟨rfl, rfl⟩

theorem runSend_deliver_err (context : StateDB) (tx : Transaction) (sender : Address)
    (pool : Int) (toAddr : Address) (coin : CoinSymbol) (v : Int) :
    (runSend context false tx sender pool toAddr coin v).resp.code ≠ Code.OK →
    (runSend context false tx sender pool toAddr coin v).state = context ∧
    (runSend context false tx sender pool toAddr coin v).rewardPull = pool := by
  unfold runSend
  simp only [Bool.false_eq_true, if_false]
  repeat' split
  all_goals first
    | exact fun h => absurd rfl h
    | exact fun _ => ⟨rfl, rfl⟩

theorem runRedeemCheck_deliver_err (context : StateDB) (tx : Transaction) (sender : Address)
    (pool : Int) (blk : Nat) (rc : Option CheckData) (rp : Option PubKey) :
    (runRedeemCheck context false tx sender pool blk rc rp).resp.code ≠ Code.OK →
    (runRedeemCheck context false tx sender pool blk rc rp).state = context ∧
    (runRedeemCheck context false tx sender pool blk rc rp).rewardPull = pool := by
  unfold runRedeemCheck
  simp only [Bool.false_eq_true, if_false]
  repeat' split
  all_goals first
    | exact fun h => absurd rfl h
    | exact fun _ => ⟨rfl, rfl⟩

set_option maxHeartbeats 3000000 in
theorem runSellCoin_deliver_err (context : StateDB) (tx : Transaction) (sender : Address)
    (pool : Int) (cs : CoinSymbol) (v : Int) (cb : CoinSymbol) :
    (runSellCoin context false tx sender pool cs v cb).resp.code ≠ Code.OK →
    (runSellCoin context false tx sender pool cs v cb).state = context ∧
    (runSellCoin context false tx sender pool cs v cb).rewardPull = pool := by
  unfold runSellCoin
  simp only [Bool.false_eq_true, if_false]
  repeat' split
  all_goals first
    | exact fun h => absurd rfl h
    | exact fun _ => ⟨rfl, rfl⟩

set_option maxHeartbeats 3000000 in
theorem runBuyCoin_deliver_err (context : StateDB) (tx : Transaction) (sender : Address)
    (pool : Int) (cb : CoinSymbol) (v : Int) (cs : CoinSymbol) :
    (runBuyCoin context false tx sender pool cb v cs).resp.code ≠ Code.OK →
    (runBuyCoin context false tx sender pool cb v cs).state = context ∧
    (runBuyCoin context false tx sender pool cb v cs).rewardPull = pool := by
  unfold runBuyCoin runBuyCoinFinish
  simp only [Bool.false_eq_true, if_false]
  repeat' split
  all_goals first
    | exact fun h => absurd rfl h
    | exact fun _ => ⟨rfl, rfl⟩

theorem runCreateCoin_deliver_err (context : StateDB) (tx : Transaction) (sender : Address)
    (pool : Int) (nm : String) (sym : CoinSymbol) (ia : Int) (crr : Nat) (ir : Int) :
    (runCreateCoin context false tx sender pool nm sym ia crr ir).resp.code ≠ Code.OK →
    (runCreateCoin context false tx sender pool nm sym ia crr ir).state = context ∧
    (runCreateCoin context false tx sender pool nm sym ia crr ir).rewardPull = pool := by
  unfold runCreateCoin
  simp only [Bool.false_eq_true, if_false]
  repeat' split
  all_goals first
    | exact fun h => absurd rfl h
    | exact fun _ => ⟨rfl, rfl⟩

/-- Claim C2: in deliver mode, whenever `RunTx` returns any non-OK response
code, the world state (hence every account nonce) and the reward pool are
exactly as they were before the call: all state effects happen only after
every validation of the handler has passed. -/
theorem runTx_deliver_error_no_mutation (context : StateDB) (rawTx : RawTx)
    (pool : Int) (blk : Nat)
    (h : (RunTx context false rawTx pool blk).resp.code ≠ Code.OK) :
    (RunTx context false rawTx pool blk).state = context ∧
    (RunTx context false rawTx pool blk).rewardPull = pool ∧
    (∀ a : Address, (RunTx context false rawTx pool blk).state.nonces a = context.nonces a) := by
  have main : (RunTx context false rawTx pool blk).resp.code ≠ Code.OK →
      (RunTx context false rawTx pool blk).state = context ∧
      (RunTx context false rawTx pool blk).rewardPull = pool := by
    clear h
    obtain ⟨len, dec⟩ := rawTx
    unfold RunTx
    split
    · exact fun _ => ⟨rfl, rfl⟩
    rcases dec with _ | tx
    · exact fun _ => ⟨rfl, rfl⟩
    dsimp only
    split
    · exact fun _ => ⟨rfl, rfl⟩
    split
    · exact fun _ => ⟨rfl, rfl⟩
    obtain ⟨n, gp, d, pl, sd, sr, g⟩ := tx
    rcases sr with _ | sender
    · exact fun _ => ⟨rfl, rfl⟩
    dsimp only
    split
    · exact fun _ => ⟨rfl, rfl⟩
    unfold runTxData
    cases d
    case declareCandidacy => apply runDeclareCandidacy_deliver_err
    case setCandidateOnline => apply runSetCandidateOnline_deliver_err
    case setCandidateOffline => apply runSetCandidateOffline_deliver_err
    case delegate => apply runDelegate_deliver_err
    case unbond => apply runUnbond_deliver_err
    case send => apply runSend_deliver_err
    case redeemCheck => apply runRedeemCheck_deliver_err
    case sellCoin => apply runSellCoin_deliver_err
    case buyCoin => apply runBuyCoin_deliver_err
    case createCoin => apply runCreateCoin_deliver_err
    case unknown => exact fun _ => ⟨rfl, rfl⟩
  exact ⟨(main h).1, (main h).2, fun a => by rw [(main h).1]⟩

/-- A small concrete world state used by witnesses: every balance is 10^12,
every nonce 0, the base coin and a registered coin "AAA" with CRR 100 exist,
no candidates, no frozen funds, no used checks. -/
def wState : StateDB where
  balances := fun _ _ => 1000000000000
  nonces := fun _ => 0
  coinExistsSet := fun c => decide (c = GetBaseCoin) || decide (c = "AAA")
  coins := fun c =>
    if c = "AAA" then
      { name := "AAA", volume := 100000000000, reserveBalance := 100000000000,
        crr := 100, creator := 9 }
    else
      { name := "base", volume := 0, reserveBalance := 0, crr := 100, creator := 0 }
  candidates := fun _ => none
  frozenFunds := fun _ => []
  usedChecks := fun _ => false

/-- Witness for claim C2: an oversized raw transaction in deliver mode
returns `TxTooLarge` and leaves state and reward pool unchanged. -/
theorem runTx_deliver_error_no_mutation_witness :
    (RunTx wState false ⟨2000, none⟩ 7 5).resp.code ≠ Code.OK ∧
    ((RunTx wState false ⟨2000, none⟩ 7 5).state = wState ∧
     (RunTx wState false ⟨2000, none⟩ 7 5).rewardPull = 7 ∧
     (∀ a : Address, (RunTx wState false ⟨2000, none⟩ 7 5).state.nonces a = wState.nonces a)) :=
  ⟨by decide, runTx_deliver_error_no_mutation wState ⟨2000, none⟩ 7 5 (by decide)⟩




theorem runDeclareCandidacy_ok_nonce (context : StateDB) (tx : Transaction) (sender : Address)
    (pool : Int) (blk : Nat) (a : Address) (pk : PubKey) (cm : Nat)
    (coin : CoinSymbol) (st : Int) :
    (runDeclareCandidacy context false tx sender pool blk a pk cm coin st).resp.code = Code.OK →
    (runDeclareCandidacy context false tx sender pool blk a pk cm coin st).state.nonces sender = tx.nonce := by
  unfold runDeclareCandidacy
  simp only [Bool.false_eq_true, if_false]
  repeat' split
  all_goals intro h2
  all_goals first
    | (simp at h2; done)
    | simp [StateDB.SetNonce]

theorem runSetCandidateOnline_ok_nonce (context : StateDB) (tx : Transaction) (sender : Address)
    (pool : Int) (pk : PubKey) :
    (runSetCandidateOnline context false tx sender pool pk).resp.code = Code.OK →
    (runSetCandidateOnline context false tx sender pool pk).state.nonces sender = tx.nonce := by
  unfold runSetCandidateOnline
  simp only [Bool.false_eq_true, if_false]
  repeat' split
  all_goals intro h2
  all_goals first
    | (simp at h2; done)
    | simp [StateDB.SetNonce]

theorem runSetCandidateOffline_ok_nonce (context : StateDB) (tx : Transaction) (sender : Address)
    (pool : Int) (pk : PubKey) :
    (runSetCandidateOffline context false tx sender pool pk).resp.code = Code.OK →
    (runSetCandidateOffline context false tx sender pool pk).state.nonces sender = tx.nonce := by
  unfold runSetCandidateOffline
  simp only [Bool.false_eq_true, if_false]
  repeat' split
  all_goals intro h2
  all_goals first
    | (simp at h2; done)
    | simp [StateDB.SetNonce]

theorem runDelegate_ok_nonce (context : StateDB) (tx : Transaction) (sender : Address)
    (pool : Int) (pk : PubKey) (coin : CoinSymbol) (st : Int) :
    (runDelegate context false tx sender pool pk coin st).resp.code = Code.OK →
    (runDelegate context false tx sender pool pk coin st).state.nonces sender = tx.nonce := by
  unfold runDelegate
  simp only [Bool.false_eq_true, if_false]
  repeat' split
  all_goals intro h2
  all_goals first
    | (simp at h2; done)
    | simp [StateDB.SetNonce]

theorem runUnbond_ok_nonce (context : StateDB) (tx : Transaction) (sender : Address)
    (pool : Int) (blk : Nat) (pk : PubKey) (coin : CoinSymbol) (v : Int) :
    (runUnbond context false tx sender pool blk pk coin v).resp.code = Code.OK →
    (runUnbond context false tx sender pool blk pk coin v).state.nonces sender = tx.nonce := by
  unfold runUnbond
  simp only [Bool.false_eq_true, if_false]
  repeat' split
  all_goals intro h2
  all_goals first
    | (simp at h2; done)
    | simp [StateDB.SetNonce]

theorem runSend_ok_nonce (context : StateDB) (tx : Transaction) (sender : Address)
    (pool : Int) (toAddr : Address) (coin : CoinSymbol) (v : Int) :
    (runSend context false tx sender pool toAddr coin v).resp.code = Code.OK →
    (runSend context false tx sender pool toAddr coin v).state.nonces sender = tx.nonce := by
  unfold runSend
  simp only [Bool.false_eq_true, if_false]
  repeat' split
  all_goals intro h2
  all_goals first
    | (simp at h2; done)
    | simp [StateDB.SetNonce]

theorem runRedeemCheck_ok_nonce (context : StateDB) (tx : Transaction) (sender : Address)
    (pool : Int) (blk : Nat) (rc : Option CheckData) (rp : Option PubKey) :
    (runRedeemCheck context false tx sender pool blk rc rp).resp.code = Code.OK →
    (runRedeemCheck context false tx sender pool blk rc rp).state.nonces sender = tx.nonce := by
  unfold runRedeemCheck
  simp only [Bool.false_eq_true, if_false]
  repeat' split
  all_goals intro h2
  all_goals first
    | (simp at h2; done)
    | simp [StateDB.SetNonce]

set_option maxHeartbeats 4000000 in
theorem runSellCoin_ok_nonce (context : StateDB) (tx : Transaction) (sender : Address)
    (pool : Int) (cs : CoinSymbol) (v : Int) (cb : CoinSymbol) :
    (runSellCoin context false tx sender pool cs v cb).resp.code = Code.OK →
    (runSellCoin context false tx sender pool cs v cb).state.nonces sender = tx.nonce := by
  unfold runSellCoin
  simp only [Bool.false_eq_true, if_false]
  repeat' split
  all_goals intro h2
  all_goals first
    | (simp at h2; done)
    | simp [StateDB.SetNonce]

set_option maxHeartbeats 4000000 in
theorem runBuyCoin_ok_nonce (context : StateDB) (tx : Transaction) (sender : Address)
    (pool : Int) (cb : CoinSymbol) (v : Int) (cs : CoinSymbol) :
    (runBuyCoin context false tx sender pool cb v cs).resp.code = Code.OK →
    (runBuyCoin context false tx sender pool cb v cs).state.nonces sender = tx.nonce := by
  unfold runBuyCoin runBuyCoinFinish
  simp only [Bool.false_eq_true, if_false]
  repeat' split
  all_goals intro h2
  all_goals first
    | (simp at h2; done)
    | simp [StateDB.SetNonce]

theorem runCreateCoin_ok_nonce (context : StateDB) (tx : Transaction) (sender : Address)
    (pool : Int) (nm : String) (sym : CoinSymbol) (ia : Int) (crr : Nat) (ir : Int) :
    (runCreateCoin context false tx sender pool nm sym ia crr ir).resp.code = Code.OK →
    (runCreateCoin context false tx sender pool nm sym ia crr ir).state.nonces sender = tx.nonce := by
  unfold runCreateCoin
  simp only [Bool.false_eq_true, if_false]
  repeat' split
  all_goals intro h2
  all_goals first
    | (simp at h2; done)
    | simp [StateDB.SetNonce]

/-- Counterexample to claim C8 as stated: a check-mode Send execution returns
code OK but leaves the sender's nonce unchanged (check mode performs no
mutation), so an execution of the executor returning OK need not increase any
nonce. -/
theorem runTx_ok_nonce_counterexample :
    (RunTx wState true
      ⟨100, some { nonce := 55, gasPrice := 1, data := TxData.send 2 GetBaseCoin 100,
                   payloadLength := 0, serviceDataLength := 0, senderResult := some 1,
                   gasAmount := 10 }⟩ 0 0).resp.code = Code.OK ∧
    ¬ ((RunTx wState true
      ⟨100, some { nonce := 55, gasPrice := 1, data := TxData.send 2 GetBaseCoin 100,
                   payloadLength := 0, serviceDataLength := 0, senderResult := some 1,
                   gasAmount := 10 }⟩ 0 0).state.nonces 1 = wState.nonces 1 + 1) := by
  decide

/-- Claim C8, amended: in deliver mode, every execution of the executor that
returns code OK leaves the sender's nonce exactly one greater than before the
call (in check mode the nonce is not modified even on OK). -/
theorem runTx_deliver_ok_nonce_bump (context : StateDB) (len : Nat)
    (tx : Transaction) (pool : Int) (blk : Nat) (a : Address)
    (hsnd : tx.senderResult = some a)
    (hok : (RunTx context false ⟨len, some tx⟩ pool blk).resp.code = Code.OK) :
    (RunTx context false ⟨len, some tx⟩ pool blk).state.nonces a = context.nonces a + 1 := by
  obtain ⟨n, gp, d, pl, sd, sr, g⟩ := tx
  dsimp only at hsnd
  subst hsnd
  have main : (RunTx context false ⟨len, some ⟨n, gp, d, pl, sd, some a, g⟩⟩ pool blk).resp.code = Code.OK →
      (RunTx context false ⟨len, some ⟨n, gp, d, pl, sd, some a, g⟩⟩ pool blk).state.nonces a
        = context.nonces a + 1 := by
    clear hok
    unfold RunTx
    dsimp only
    split
    · exact fun h2 => by simp at h2
    split
    · exact fun h2 => by simp at h2
    split
    · exact fun h2 => by simp at h2
    split
    · exact fun h2 => by simp at h2
    next hng =>
      have hn : n = context.GetNonce a + 1 := by
        by_contra hne
        exact hng ⟨rfl, fun he => hne he.symm⟩
      subst hn
      unfold runTxData
      cases d
      case declareCandidacy => exact fun h2 => runDeclareCandidacy_ok_nonce _ _ _ _ _ _ _ _ _ _ h2
      case setCandidateOnline => exact fun h2 => runSetCandidateOnline_ok_nonce _ _ _ _ _ h2
      case setCandidateOffline => exact fun h2 => runSetCandidateOffline_ok_nonce _ _ _ _ _ h2
      case delegate => exact fun h2 => runDelegate_ok_nonce _ _ _ _ _ _ _ h2
      case unbond => exact fun h2 => runUnbond_ok_nonce _ _ _ _ _ _ _ _ h2
      case send => exact fun h2 => runSend_ok_nonce _ _ _ _ _ _ _ h2
      case redeemCheck => exact fun h2 => runRedeemCheck_ok_nonce _ _ _ _ _ _ _ h2
      case sellCoin => exact fun h2 => runSellCoin_ok_nonce _ _ _ _ _ _ _ h2
      case buyCoin => exact fun h2 => runBuyCoin_ok_nonce _ _ _ _ _ _ _ h2
      case createCoin => exact fun h2 => runCreateCoin_ok_nonce _ _ _ _ _ _ _ _ _ h2
      case unknown => exact fun h2 => by simp at h2
  exact main hok

/-- Witness for the amended claim C8: a concrete deliver-mode Send with
correct nonce succeeds and bumps the sender's nonce from 0 to 1. -/
theorem runTx_deliver_ok_nonce_bump_witness :
    (RunTx wState false
      ⟨100, some { nonce := 1, gasPrice := 1, data := TxData.send 2 GetBaseCoin 100,
                   payloadLength := 0, serviceDataLength := 0, senderResult := some 1,
                   gasAmount := 10 }⟩ 0 0).resp.code = Code.OK ∧
    (RunTx wState false
      ⟨100, some { nonce := 1, gasPrice := 1, data := TxData.send 2 GetBaseCoin 100,
                   payloadLength := 0, serviceDataLength := 0, senderResult := some 1,
                   gasAmount := 10 }⟩ 0 0).state.nonces 1 = wState.nonces 1 + 1 :=
  ⟨by decide, runTx_deliver_ok_nonce_bump wState 100 _ 0 0 1 rfl (by decide)⟩




/-- True exactly for the two staking transaction types whose fee-conversion
path reads the coin registry without a coin-existence check. -/
def isStakeFeeTx : TxData → Bool
  | TxData.declareCandidacy _ _ _ _ _ => true
  | TxData.delegate _ _ _ => true
  | _ => false

theorem runDeclareCandidacy_no_coinNotExists (context : StateDB) (isCheck : Bool)
    (tx : Transaction) (sender : Address) (pool : Int) (blk : Nat) (a : Address)
    (pk : PubKey) (cm : Nat) (coin : CoinSymbol) (st : Int) :
    (runDeclareCandidacy context isCheck tx sender pool blk a pk cm coin st).resp.code
      = Code.CoinNotExists → False := by
  unfold runDeclareCandidacy
  dsimp only
  repeat' split
  all_goals intro h2
  all_goals exact nomatch h2

theorem runDelegate_no_coinNotExists (context : StateDB) (isCheck : Bool)
    (tx : Transaction) (sender : Address) (pool : Int)
    (pk : PubKey) (coin : CoinSymbol) (st : Int) :
    (runDelegate context isCheck tx sender pool pk coin st).resp.code
      = Code.CoinNotExists → False := by
  unfold runDelegate
  dsimp only
  repeat' split
  all_goals intro h2
  all_goals exact nomatch h2

/-- Claim C10: neither the DeclareCandidacy handler nor the Delegate handler
validates that the named coin exists: no execution of the executor on such a
transaction returns `CoinNotExists`, in either mode, even when the coin is a
non-base symbol absent from the registry (the handler reads the coin's
reserve and volume for the fee conversion directly). -/
theorem runTx_staking_no_coinNotExists (context : StateDB) (isCheck : Bool)
    (len : Nat) (tx : Transaction) (pool : Int) (blk : Nat)
    (h : isStakeFeeTx tx.data = true) :
    (RunTx context isCheck ⟨len, some tx⟩ pool blk).resp.code ≠ Code.CoinNotExists := by
  obtain ⟨n, gp, d, pl, sd, sr, g⟩ := tx
  dsimp only at h
  have main : (RunTx context isCheck ⟨len, some ⟨n, gp, d, pl, sd, sr, g⟩⟩ pool blk).resp.code
      = Code.CoinNotExists → False := by
    unfold RunTx
    dsimp only
    split
    · exact fun h2 => nomatch h2
    split
    · exact fun h2 => nomatch h2
    split
    · exact fun h2 => nomatch h2
    rcases sr with _ | a0
    · exact fun h2 => nomatch h2
    dsimp only
    split
    · exact fun h2 => nomatch h2
    unfold runTxData
    cases d
    case declareCandidacy => apply runDeclareCandidacy_no_coinNotExists
    case delegate => apply runDelegate_no_coinNotExists
    all_goals simp only [isStakeFeeTx, Bool.false_eq_true] at h
  exact main

/-- Witness for claim C10: a deliver-mode DeclareCandidacy naming the
unregistered coin "ZZZ" does not return `CoinNotExists` (here it fails with
`CoinReserveNotSufficient`, read off the default registry entry). -/
theorem runTx_staking_no_coinNotExists_witness :
    isStakeFeeTx (TxData.declareCandidacy 3 (List.replicate 32 7) 10 "ZZZ" 100) = true ∧
    (RunTx wState false
      ⟨100, some { nonce := 1, gasPrice := 1,
                   data := TxData.declareCandidacy 3 (List.replicate 32 7) 10 "ZZZ" 100,
                   payloadLength := 0, serviceDataLength := 0, senderResult := some 1,
                   gasAmount := 10 }⟩ 0 0).resp.code ≠ Code.CoinNotExists :=
  ⟨by decide, runTx_staking_no_coinNotExists wState false 100 _ 0 0 (by decide)⟩




/-- Public key used by concrete staking examples. -/
def wPk : PubKey := List.replicate 32 7

/-- A candidate with a 500-unit base-coin stake held by address 1. -/
def wCandidate : Candidate where
  candidateAddress := 3
  pubKey := wPk
  commission := 10
  createdAtBlock := 0
  online := false
  stakes := fun a c => if a = 1 ∧ c = GetBaseCoin then some 500 else none

/-- `wState` with the single candidate `wCandidate` registered under `wPk`. -/
def wStakeState : StateDB :=
  { wState with candidates := fun pk2 => if pk2 = wPk then some wCandidate else none }

/-- The candidate entry after `SubStake`: the `(a, coin)` stake reduced by
`v`, everything else unchanged. -/
def unbondedCandidate (c : Candidate) (a : Address) (coin : CoinSymbol) (v : Int) : Candidate :=
  { c with stakes := fun a2 c3 =>
      if a2 = a ∧ c3 = coin then (c.stakes a2 c3).map (fun w2 => w2 - v)
      else c.stakes a2 c3 }

theorem runUnbond_effects (context : StateDB) (tx : Transaction) (a : Address)
    (pool : Int) (blk : Nat) (pk : PubKey) (coin : CoinSymbol) (v : Int)
    (c : Candidate) (w : Int)
    (hs : context.candidates pk = some c)
    (hw : c.stakes a coin = some w) :
    (runUnbond context false tx a pool blk pk coin v).resp.code = Code.OK →
    (∃ c2 : Candidate,
      (runUnbond context false tx a pool blk pk coin v).state.candidates pk = some c2 ∧
      c2.stakes a coin = some (w - v)) ∧
    (runUnbond context false tx a pool blk pk coin v).state.frozenFunds (blk + unboundPeriod)
      = context.frozenFunds (blk + unboundPeriod) ++ [⟨a, pk, coin, v⟩] ∧
    (runUnbond context false tx a pool blk pk coin v).state.balances a GetBaseCoin
      = context.balances a GetBaseCoin - commissionInBase tx := by
  unfold runUnbond
  rw [hs]
  dsimp only
  rw [hw]
  dsimp only
  simp only [Bool.false_eq_true, if_false]
  repeat' split
  all_goals intro h2
  all_goals first
    | (simp at h2; done)
    | (refine ⟨⟨unbondedCandidate c a coin v, ?_, ?_⟩, ?_, ?_⟩
       · simp [unbondedCandidate, StateDB.SubBalance, StateDB.SubStake,
           StateDB.AddFrozenFund, StateDB.SetNonce, hs]
       · simp [unbondedCandidate, hw]
       · simp [StateDB.SubBalance, StateDB.SubStake, StateDB.AddFrozenFund,
           StateDB.SetNonce]
       · simp [StateDB.SubBalance, StateDB.SubStake, StateDB.AddFrozenFund,
           StateDB.SetNonce])

/-- Claim C9: a successful deliver-mode Unbond of `v` at block `blk` reduces
the sender's stake under `(pk, coin)` by exactly `v`, appends the entry
`(sender, pk, coin, v)` to the frozen-funds bucket at block `blk + 518400`,
and debits the fee in the base coin. -/
theorem runTx_unbond_effects (context : StateDB) (len : Nat) (n : Nat)
    (gp : Int) (pl sd : Nat) (g : Int) (pool : Int) (blk : Nat) (a : Address)
    (pk : PubKey) (coin : CoinSymbol) (v : Int) (c : Candidate) (w : Int)
    (hs : context.candidates pk = some c)
    (hw : c.stakes a coin = some w)
    (hok : (RunTx context false
      ⟨len, some ⟨n, gp, TxData.unbond pk coin v, pl, sd, some a, g⟩⟩ pool blk).resp.code
        = Code.OK) :
    (∃ c2 : Candidate,
      (RunTx context false
        ⟨len, some ⟨n, gp, TxData.unbond pk coin v, pl, sd, some a, g⟩⟩ pool blk).state.candidates pk
          = some c2 ∧
      c2.stakes a coin = some (w - v)) ∧
    (RunTx context false
      ⟨len, some ⟨n, gp, TxData.unbond pk coin v, pl, sd, some a, g⟩⟩ pool blk).state.frozenFunds
        (blk + unboundPeriod)
      = context.frozenFunds (blk + unboundPeriod) ++ [⟨a, pk, coin, v⟩] ∧
    (RunTx context false
      ⟨len, some ⟨n, gp, TxData.unbond pk coin v, pl, sd, some a, g⟩⟩ pool blk).state.balances a
        GetBaseCoin
      = context.balances a GetBaseCoin - gp * g * CommissionMultiplier := by
  have main : (RunTx context false
      ⟨len, some ⟨n, gp, TxData.unbond pk coin v, pl, sd, some a, g⟩⟩ pool blk).resp.code
        = Code.OK →
      (∃ c2 : Candidate,
        (RunTx context false
          ⟨len, some ⟨n, gp, TxData.unbond pk coin v, pl, sd, some a, g⟩⟩ pool blk).state.candidates pk
            = some c2 ∧
        c2.stakes a coin = some (w - v)) ∧
      (RunTx context false
        ⟨len, some ⟨n, gp, TxData.unbond pk coin v, pl, sd, some a, g⟩⟩ pool blk).state.frozenFunds
          (blk + unboundPeriod)
        = context.frozenFunds (blk + unboundPeriod) ++ [⟨a, pk, coin, v⟩] ∧
      (RunTx context false
        ⟨len, some ⟨n, gp, TxData.unbond pk coin v, pl, sd, some a, g⟩⟩ pool blk).state.balances a
          GetBaseCoin
        = context.balances a GetBaseCoin - gp * g * CommissionMultiplier := by
    clear hok
    unfold RunTx
    dsimp only
    split
    · exact fun h2 => nomatch h2
    split
    · exact fun h2 => nomatch h2
    split
    · exact fun h2 => nomatch h2
    split
    · exact fun h2 => nomatch h2
    unfold runTxData
    exact runUnbond_effects context _ a pool blk pk coin v c w hs hw
  exact main hok

/-- Witness for claim C9: address 1 unbonds its full 500-unit base-coin stake
under `wPk` at block 100; the stake drops to 0, the entry appears in the
frozen-funds bucket at block 518500, and the fee is debited in base coin. -/
theorem runTx_unbond_effects_witness :
    (∃ c2 : Candidate,
      (RunTx wStakeState false
        ⟨100, some ⟨1, 1, TxData.unbond wPk GetBaseCoin 500, 0, 0, some 1, 10⟩⟩ 0 100).state.candidates wPk
          = some c2 ∧
      c2.stakes 1 GetBaseCoin = some (500 - 500)) ∧
    (RunTx wStakeState false
      ⟨100, some ⟨1, 1, TxData.unbond wPk GetBaseCoin 500, 0, 0, some 1, 10⟩⟩ 0 100).state.frozenFunds
        (100 + unboundPeriod)
      = wStakeState.frozenFunds (100 + unboundPeriod) ++ [⟨1, wPk, GetBaseCoin, 500⟩] ∧
    (RunTx wStakeState false
      ⟨100, some ⟨1, 1, TxData.unbond wPk GetBaseCoin 500, 0, 0, some 1, 10⟩⟩ 0 100).state.balances 1
        GetBaseCoin
      = wStakeState.balances 1 GetBaseCoin - 1 * 10 * CommissionMultiplier :=
  runTx_unbond_effects wStakeState 100 1 1 0 0 10 0 100 1 wPk GetBaseCoin 500
    wCandidate 500 (by rfl) (by rfl) (by decide)




theorem runRedeemCheck_gasPrice_iff (context : StateDB) (isCheck : Bool)
    (tx : Transaction) (sender : Address) (pool : Int) (blk : Nat)
    (chk : CheckData) (cs : Address) (rp : Option PubKey)
    (hcs : chk.checkSender = some cs)
    (hcoin : context.CoinExists chk.coin = true)
    (hdue : ¬ chk.dueBlock < blk)
    (hused : context.IsCheckUsed chk = false) :
    ((runRedeemCheck context isCheck tx sender pool blk (some chk) rp).resp.code
      = Code.TooHighGasPrice) ↔ 1 < tx.gasPrice := by
  unfold runRedeemCheck
  dsimp only
  rw [hcs]
  dsimp only
  simp only [hcoin, hdue, hused, Bool.true_eq_false, Bool.false_eq_true,
    if_false, ite_false]
  split
  case isTrue h => exact iff_of_true rfl h
  case isFalse h =>
    repeat' split
    all_goals exact iff_of_false (fun hx => nomatch hx) h

/-- Counterexample to claim C7 as stated: a RedeemCheck with `gas_price = 0`
(thus not equal to 1) passes the gas-price guard — the code only rejects
`gas_price > 1` — and here completes with code OK, not `TooHighGasPrice`. -/
theorem runTx_redeemCheck_gasPrice_counterexample :
    (RunTx wState false
      ⟨100, some { nonce := 1, gasPrice := 0,
                   data := TxData.redeemCheck
                     (some { coin := GetBaseCoin, value := 100, dueBlock := 50,
                             checkSender := some 2, lockPubKey := some [1, 2, 3] })
                     (some [1, 2, 3]),
                   payloadLength := 0, serviceDataLength := 0, senderResult := some 1,
                   gasAmount := 10 }⟩ 0 10).resp.code = Code.OK ∧
    (RunTx wState false
      ⟨100, some { nonce := 1, gasPrice := 0,
                   data := TxData.redeemCheck
                     (some { coin := GetBaseCoin, value := 100, dueBlock := 50,
                             checkSender := some 2, lockPubKey := some [1, 2, 3] })
                     (some [1, 2, 3]),
                   payloadLength := 0, serviceDataLength := 0, senderResult := some 1,
                   gasAmount := 10 }⟩ 0 10).resp.code ≠ Code.TooHighGasPrice ∧
    (0 : Int) ≠ 1 := by
  refine ⟨by decide, by decide, by decide⟩

/-- Claim C7, amended: for every RedeemCheck transaction that passes the
decode, coin-existence, expiry and used-check preconditions, the executor
returns `TooHighGasPrice` exactly when `tx.gas_price > 1`; any gas price at
most 1 (including 0) passes this guard. -/
theorem runTx_redeemCheck_gasPrice (context : StateDB) (isCheck : Bool)
    (len : Nat) (n : Nat) (gp : Int) (pl sd : Nat) (g : Int) (pool : Int)
    (blk : Nat) (a : Address) (chk : CheckData) (cs : Address) (rp : Option PubKey)
    (hlen : ¬ maxTxLength < len) (hpl : ¬ maxPayloadLength < pl)
    (hsd : ¬ maxServiceDataLength < sd)
    (hn : isCheck = true ∨ n = context.GetNonce a + 1)
    (hcs : chk.checkSender = some cs)
    (hcoin : context.CoinExists chk.coin = true)
    (hdue : ¬ chk.dueBlock < blk)
    (hused : context.IsCheckUsed chk = false) :
    ((RunTx context isCheck
      ⟨len, some ⟨n, gp, TxData.redeemCheck (some chk) rp, pl, sd, some a, g⟩⟩ pool blk).resp.code
        = Code.TooHighGasPrice) ↔ 1 < gp := by
  unfold RunTx
  dsimp only
  rw [if_neg hlen, if_neg hpl, if_neg hsd]
  have hguard : ¬ (isCheck = false ∧ ¬ (context.GetNonce a + 1 = n)) := by
    rcases hn with h1 | h2
    · rintro ⟨hservice, -⟩
      rw [h1] at hservice
      exact nomatch hservice
    · rintro ⟨-, hne⟩
      exact hne h2.symm
  rw [if_neg hguard]
  unfold runTxData
  exact runRedeemCheck_gasPrice_iff context isCheck _ a pool blk chk cs rp hcs
    hcoin hdue hused

/-- Witness for the amended claim C7: with gas price 2 and all RedeemCheck
preconditions satisfied, the executor returns `TooHighGasPrice`. -/
theorem runTx_redeemCheck_gasPrice_witness :
    ((RunTx wState false
      ⟨100, some ⟨1, 2, TxData.redeemCheck
          (some { coin := GetBaseCoin, value := 100, dueBlock := 50,
                  checkSender := some 2, lockPubKey := some [1, 2, 3] })
          (some [1, 2, 3]), 0, 0, some 1, 10⟩⟩ 0 10).resp.code
        = Code.TooHighGasPrice) ↔ (1 : Int) < 2 :=
  runTx_redeemCheck_gasPrice wState false 100 1 2 0 0 10 0 10 1
    { coin := GetBaseCoin, value := 100, dueBlock := 50,
      checkSender := some 2, lockPubKey := some [1, 2, 3] } 2 (some [1, 2, 3])
    (by decide) (by decide) (by decide) (Or.inr (by decide)) (by rfl)
    (by decide) (by decide) (by decide)




/-- A state whose coin "AAA" has reserve 5*10^8, far below the base-coin
commission of a gas-price-1, gas-10 transaction (10^10). -/
def lowReserveState : StateDB :=
  { wState with coins := fun c =>
      if c = "AAA" then
        { name := "AAA", volume := 10000000000, reserveBalance := 500000000,
          crr := 100, creator := 9 }
      else
        { name := "base", volume := 0, reserveBalance := 0, crr := 100, creator := 0 } }

/-- Claim C6 evaluation: a RedeemCheck on coin "AAA" whose reserve (5*10^8)
is strictly below commission_in_base (10^10) is not rejected with
`CoinReserveNotSufficient` — the handler has no reserve guard — but completes
with OK and drives the coin's reserve negative. -/
theorem runTx_redeemCheck_missing_reserve_guard :
    (lowReserveState.coins "AAA").reserveBalance < 1 * 10 * CommissionMultiplier ∧
    (RunTx lowReserveState false
      ⟨100, some ⟨1, 1, TxData.redeemCheck
          (some { coin := "AAA", value := 100, dueBlock := 50,
                  checkSender := some 2, lockPubKey := some [1, 2, 3] })
          (some [1, 2, 3]), 0, 0, some 1, 10⟩⟩ 0 10).resp.code = Code.OK ∧
    ((RunTx lowReserveState false
      ⟨100, some ⟨1, 1, TxData.redeemCheck
          (some { coin := "AAA", value := 100, dueBlock := 50,
                  checkSender := some 2, lockPubKey := some [1, 2, 3] })
          (some [1, 2, 3]), 0, 0, some 1, 10⟩⟩ 0 10).state.coins "AAA").reserveBalance < 0 := by
  refine ⟨by decide, by decide, by decide⟩

/-- Counterexample to claim C4 as stated: for a successful deliver-mode Send
in the non-base coin "AAA", the sum with a plus sign on the volume delta is
-2 * commission, not 0 (the sender's commission debit and the volume burn
point the same way). -/
theorem runTx_send_conservation_counterexample :
    (RunTx wState false
      ⟨100, some ⟨1, 1, TxData.send 2 "AAA" 1000000000, 0, 0, some 1, 10⟩⟩ 0 0).resp.code
        = Code.OK ∧
    ((RunTx wState false
        ⟨100, some ⟨1, 1, TxData.send 2 "AAA" 1000000000, 0, 0, some 1, 10⟩⟩ 0 0).state.balances 1 "AAA"
      - wState.balances 1 "AAA")
    + ((RunTx wState false
        ⟨100, some ⟨1, 1, TxData.send 2 "AAA" 1000000000, 0, 0, some 1, 10⟩⟩ 0 0).state.balances 2 "AAA"
      - wState.balances 2 "AAA")
    + (((RunTx wState false
        ⟨100, some ⟨1, 1, TxData.send 2 "AAA" 1000000000, 0, 0, some 1, 10⟩⟩ 0 0).state.coins "AAA").volume
      - (wState.coins "AAA").volume) ≠ 0 := by
  refine ⟨by decide, by decide⟩

theorem runSend_nonbase_conservation (context : StateDB) (tx : Transaction)
    (a : Address) (pool : Int) (toAddr : Address) (coin : CoinSymbol) (v : Int)
    (hcoin : coin ≠ GetBaseCoin) (hto : a ≠ toAddr) :
    (runSend context false tx a pool toAddr coin v).resp.code = Code.OK →
    ((runSend context false tx a pool toAddr coin v).state.balances a coin
        - context.balances a coin)
      + ((runSend context false tx a pool toAddr coin v).state.balances toAddr coin
        - context.balances toAddr coin)
      - (((runSend context false tx a pool toAddr coin v).state.coins coin).volume
        - (context.coins coin).volume) = 0 ∧
    (((runSend context false tx a pool toAddr coin v).state.coins coin).reserveBalance
        - (context.coins coin).reserveBalance)
      + ((runSend context false tx a pool toAddr coin v).rewardPull - pool) = 0 := by
  unfold runSend
  simp only [Bool.false_eq_true, if_false, ite_false, hcoin, not_false_eq_true,
    true_and, if_true, ite_true]
  repeat' split
  all_goals intro h2
  all_goals first
    | (simp at h2; done)
    | (refine ⟨?_, ?_⟩ <;>
        · simp [StateDB.SubBalance, StateDB.AddBalance, StateDB.SubCoinVolume,
            StateDB.SubCoinReserve, StateDB.SetNonce, hcoin, hto, Ne.symm hto]
          try ring)

/-- Claim C4, amended: for every successful deliver-mode Send of `v` in a
non-base coin `C` from `a` to a distinct `toAddr`, the balance deltas satisfy
`Δbalance(a,C) + Δbalance(toAddr,C) - Δvolume(C) = 0` (the claim's version
with `+ Δvolume(C)` equals `-2*commission` instead), and
`Δreserve(C) + Δreward_pool = 0` as claimed. -/
theorem runTx_send_nonbase_conservation (context : StateDB) (len : Nat)
    (n : Nat) (gp : Int) (pl sd : Nat) (g : Int) (pool : Int) (blk : Nat)
    (a toAddr : Address) (coin : CoinSymbol) (v : Int)
    (hcoin : coin ≠ GetBaseCoin) (hto : a ≠ toAddr)
    (hok : (RunTx context false
      ⟨len, some ⟨n, gp, TxData.send toAddr coin v, pl, sd, some a, g⟩⟩ pool blk).resp.code
        = Code.OK) :
    ((RunTx context false
        ⟨len, some ⟨n, gp, TxData.send toAddr coin v, pl, sd, some a, g⟩⟩ pool blk).state.balances a coin
      - context.balances a coin)
    + ((RunTx context false
        ⟨len, some ⟨n, gp, TxData.send toAddr coin v, pl, sd, some a, g⟩⟩ pool blk).state.balances toAddr coin
      - context.balances toAddr coin)
    - (((RunTx context false
        ⟨len, some ⟨n, gp, TxData.send toAddr coin v, pl, sd, some a, g⟩⟩ pool blk).state.coins coin).volume
      - (context.coins coin).volume) = 0 ∧
    (((RunTx context false
        ⟨len, some ⟨n, gp, TxData.send toAddr coin v, pl, sd, some a, g⟩⟩ pool blk).state.coins coin).reserveBalance
      - (context.coins coin).reserveBalance)
    + ((RunTx context false
        ⟨len, some ⟨n, gp, TxData.send toAddr coin v, pl, sd, some a, g⟩⟩ pool blk).rewardPull
      - pool) = 0 := by
  have main : (RunTx context false
      ⟨len, some ⟨n, gp, TxData.send toAddr coin v, pl, sd, some a, g⟩⟩ pool blk).resp.code
        = Code.OK →
      ((RunTx context false
          ⟨len, some ⟨n, gp, TxData.send toAddr coin v, pl, sd, some a, g⟩⟩ pool blk).state.balances a coin
        - context.balances a coin)
      + ((RunTx context false
          ⟨len, some ⟨n, gp, TxData.send toAddr coin v, pl, sd, some a, g⟩⟩ pool blk).state.balances toAddr coin
        - context.balances toAddr coin)
      - (((RunTx context false
          ⟨len, some ⟨n, gp, TxData.send toAddr coin v, pl, sd, some a, g⟩⟩ pool blk).state.coins coin).volume
        - (context.coins coin).volume) = 0 ∧
      (((RunTx context false
          ⟨len, some ⟨n, gp, TxData.send toAddr coin v, pl, sd, some a, g⟩⟩ pool blk).state.coins coin).reserveBalance
        - (context.coins coin).reserveBalance)
      + ((RunTx context false
          ⟨len, some ⟨n, gp, TxData.send toAddr coin v, pl, sd, some a, g⟩⟩ pool blk).rewardPull
        - pool) = 0 := by
    clear hok
    unfold RunTx
    dsimp only
    split
    · exact fun h2 => nomatch h2
    split
    · exact fun h2 => nomatch h2
    split
    · exact fun h2 => nomatch h2
    split
    · exact fun h2 => nomatch h2
    unfold runTxData
    exact runSend_nonbase_conservation context _ a pool toAddr coin v hcoin hto
  exact main hok

/-- Witness for the amended claim C4: the concrete Send of the C4
counterexample satisfies the corrected conservation equations. -/
theorem runTx_send_nonbase_conservation_witness :
    ((RunTx wState false
        ⟨100, some ⟨1, 1, TxData.send 2 "AAA" 1000000000, 0, 0, some 1, 10⟩⟩ 0 0).state.balances 1 "AAA"
      - wState.balances 1 "AAA")
    + ((RunTx wState false
        ⟨100, some ⟨1, 1, TxData.send 2 "AAA" 1000000000, 0, 0, some 1, 10⟩⟩ 0 0).state.balances 2 "AAA"
      - wState.balances 2 "AAA")
    - (((RunTx wState false
        ⟨100, some ⟨1, 1, TxData.send 2 "AAA" 1000000000, 0, 0, some 1, 10⟩⟩ 0 0).state.coins "AAA").volume
      - (wState.coins "AAA").volume) = 0 ∧
    (((RunTx wState false
        ⟨100, some ⟨1, 1, TxData.send 2 "AAA" 1000000000, 0, 0, some 1, 10⟩⟩ 0 0).state.coins "AAA").reserveBalance
      - (wState.coins "AAA").reserveBalance)
    + ((RunTx wState false
        ⟨100, some ⟨1, 1, TxData.send 2 "AAA" 1000000000, 0, 0, some 1, 10⟩⟩ 0 0).rewardPull
      - 0) = 0 :=
  runTx_send_nonbase_conservation wState 100 1 1 0 0 10 0 0 1 2 "AAA" 1000000000
    (by decide) (by decide) (by decide)




/-- A state with the non-base coin "SEL" whose volume/reserve ratio makes the
commission deduction observable in the trade price. -/
def sellState : StateDB :=
  { wState with
    coinExistsSet := fun c => decide (c = GetBaseCoin) || decide (c = "SEL")
    coins := fun c =>
      if c = "SEL" then
        { name := "SEL", volume := 2506456969, reserveBalance := 8563276100,
          crr := 100, creator := 9 }
      else
        { name := "base", volume := 0, reserveBalance := 0, crr := 100, creator := 0 } }

/-- Counterexample to claim C5 as stated: the same SellCoin (sell "SEL" for
the base coin) succeeds in both modes but emits different `tx.return` values,
because deliver mode deducts the commission from the coin's volume and
reserve before pricing the trade. -/
theorem runTx_sellCoin_value_counterexample :
    (RunTx sellState true
      ⟨100, some ⟨1, 1, TxData.sellCoin "SEL" 1014138929 GetBaseCoin, 0, 0, some 1, 1⟩⟩ 0 0).resp.code
        = Code.OK ∧
    (RunTx sellState false
      ⟨100, some ⟨1, 1, TxData.sellCoin "SEL" 1014138929 GetBaseCoin, 0, 0, some 1, 1⟩⟩ 0 0).resp.code
        = Code.OK ∧
    (RunTx sellState true
      ⟨100, some ⟨1, 1, TxData.sellCoin "SEL" 1014138929 GetBaseCoin, 0, 0, some 1, 1⟩⟩ 0 0).resp.returnTag
      ≠
    (RunTx sellState false
      ⟨100, some ⟨1, 1, TxData.sellCoin "SEL" 1014138929 GetBaseCoin, 0, 0, some 1, 1⟩⟩ 0 0).resp.returnTag := by
  refine ⟨by decide, by decide, by decide⟩

set_option maxHeartbeats 4000000 in
theorem runSellCoin_buyBase_value (context : StateDB) (tx : Transaction)
    (a : Address) (pool : Int) (cs : CoinSymbol) (v : Int)
    (hcs : cs ≠ GetBaseCoin) :
    ((runSellCoin context true tx a pool cs v GetBaseCoin).resp.code = Code.OK →
      (runSellCoin context true tx a pool cs v GetBaseCoin).resp.returnTag
        = some (CalculateSaleReturn (context.coins cs).volume
            (context.coins cs).reserveBalance (context.coins cs).crr v)) ∧
    ((runSellCoin context false tx a pool cs v GetBaseCoin).resp.code = Code.OK →
      (runSellCoin context false tx a pool cs v GetBaseCoin).resp.returnTag
        = some (CalculateSaleReturn
            ((context.coins cs).volume
              - CalculateSaleAmount (context.coins cs).volume
                  (context.coins cs).reserveBalance (context.coins cs).crr
                  (commissionInBase tx))
            ((context.coins cs).reserveBalance - commissionInBase tx)
            (context.coins cs).crr v) ∧
      (runSellCoin context false tx a pool cs v GetBaseCoin).state.balances a GetBaseCoin
        = context.balances a GetBaseCoin
          + CalculateSaleReturn
              ((context.coins cs).volume
                - CalculateSaleAmount (context.coins cs).volume
                    (context.coins cs).reserveBalance (context.coins cs).crr
                    (commissionInBase tx))
              ((context.coins cs).reserveBalance - commissionInBase tx)
              (context.coins cs).crr v) := by
  constructor
  · unfold runSellCoin
    simp only [hcs, eq_self_iff_true, if_true, ite_true, not_false_eq_true,
      true_and, if_false, ite_false]
    repeat' split
    all_goals intro h2
    all_goals first
      | (simp at h2; done)
      | rfl
  · unfold runSellCoin
    simp only [hcs, eq_self_iff_true, if_true, ite_true, not_false_eq_true,
      true_and, Bool.false_eq_true, if_false, ite_false]
    repeat' split
    all_goals intro h2
    all_goals first
      | (simp at h2; done)
      | (refine ⟨?_, ?_⟩ <;>
          simp [StateDB.SubBalance, StateDB.AddBalance, StateDB.SubCoinVolume,
            StateDB.SubCoinReserve, StateDB.SetNonce, hcs, Ne.symm hcs])

/-- Claim C5, amended: for a SellCoin whose coin_to_buy is the base coin, the
check-mode value is `sale_return` on the sell coin's start-of-transaction
volume and reserve, but the deliver-mode value credited and emitted in
`tx.return` is `sale_return` on the post-fee entry (volume - commission,
reserve - commission_in_base), so the two modes can differ. -/
theorem runTx_sellCoin_buyBase_value (context : StateDB) (len : Nat)
    (n : Nat) (gp : Int) (pl sd : Nat) (g : Int) (pool : Int) (blk : Nat)
    (a : Address) (cs : CoinSymbol) (v : Int)
    (hcs : cs ≠ GetBaseCoin) :
    ((RunTx context true
        ⟨len, some ⟨n, gp, TxData.sellCoin cs v GetBaseCoin, pl, sd, some a, g⟩⟩ pool blk).resp.code
          = Code.OK →
      (RunTx context true
        ⟨len, some ⟨n, gp, TxData.sellCoin cs v GetBaseCoin, pl, sd, some a, g⟩⟩ pool blk).resp.returnTag
        = some (CalculateSaleReturn (context.coins cs).volume
            (context.coins cs).reserveBalance (context.coins cs).crr v)) ∧
    ((RunTx context false
        ⟨len, some ⟨n, gp, TxData.sellCoin cs v GetBaseCoin, pl, sd, some a, g⟩⟩ pool blk).resp.code
          = Code.OK →
      (RunTx context false
        ⟨len, some ⟨n, gp, TxData.sellCoin cs v GetBaseCoin, pl, sd, some a, g⟩⟩ pool blk).resp.returnTag
        = some (CalculateSaleReturn
            ((context.coins cs).volume
              - CalculateSaleAmount (context.coins cs).volume
                  (context.coins cs).reserveBalance (context.coins cs).crr
                  (gp * g * CommissionMultiplier))
            ((context.coins cs).reserveBalance - gp * g * CommissionMultiplier)
            (context.coins cs).crr v) ∧
      (RunTx context false
        ⟨len, some ⟨n, gp, TxData.sellCoin cs v GetBaseCoin, pl, sd, some a, g⟩⟩ pool blk).state.balances a
          GetBaseCoin
        = context.balances a GetBaseCoin
          + CalculateSaleReturn
              ((context.coins cs).volume
                - CalculateSaleAmount (context.coins cs).volume
                    (context.coins cs).reserveBalance (context.coins cs).crr
                    (gp * g * CommissionMultiplier))
              ((context.coins cs).reserveBalance - gp * g * CommissionMultiplier)
              (context.coins cs).crr v) := by
  constructor
  · have main := (runSellCoin_buyBase_value context
      ⟨n, gp, TxData.sellCoin cs v GetBaseCoin, pl, sd, some a, g⟩ a pool cs v hcs).1
    unfold RunTx
    dsimp only
    split
    · exact fun h2 => nomatch h2
    split
    · exact fun h2 => nomatch h2
    split
    · exact fun h2 => nomatch h2
    split
    · exact fun h2 => nomatch h2
    unfold runTxData
    exact main
  · have main := (runSellCoin_buyBase_value context
      ⟨n, gp, TxData.sellCoin cs v GetBaseCoin, pl, sd, some a, g⟩ a pool cs v hcs).2
    unfold RunTx
    dsimp only
    split
    · exact fun h2 => nomatch h2
    split
    · exact fun h2 => nomatch h2
    split
    · exact fun h2 => nomatch h2
    split
    · exact fun h2 => nomatch h2
    unfold runTxData
    exact main

/-- Witness for the amended claim C5: the counterexample's SellCoin instance
satisfies the amended characterisation in both modes. -/
theorem runTx_sellCoin_buyBase_value_witness :
    ((RunTx sellState true
        ⟨100, some ⟨1, 1, TxData.sellCoin "SEL" 1014138929 GetBaseCoin, 0, 0, some 1, 1⟩⟩ 0 0).resp.code
          = Code.OK →
      (RunTx sellState true
        ⟨100, some ⟨1, 1, TxData.sellCoin "SEL" 1014138929 GetBaseCoin, 0, 0, some 1, 1⟩⟩ 0 0).resp.returnTag
        = some (CalculateSaleReturn (sellState.coins "SEL").volume
            (sellState.coins "SEL").reserveBalance (sellState.coins "SEL").crr 1014138929)) ∧
    ((RunTx sellState false
        ⟨100, some ⟨1, 1, TxData.sellCoin "SEL" 1014138929 GetBaseCoin, 0, 0, some 1, 1⟩⟩ 0 0).resp.code
          = Code.OK →
      (RunTx sellState false
        ⟨100, some ⟨1, 1, TxData.sellCoin "SEL" 1014138929 GetBaseCoin, 0, 0, some 1, 1⟩⟩ 0 0).resp.returnTag
        = some (CalculateSaleReturn
            ((sellState.coins "SEL").volume
              - CalculateSaleAmount (sellState.coins "SEL").volume
                  (sellState.coins "SEL").reserveBalance (sellState.coins "SEL").crr
                  (1 * 1 * CommissionMultiplier))
            ((sellState.coins "SEL").reserveBalance - 1 * 1 * CommissionMultiplier)
            (sellState.coins "SEL").crr 1014138929) ∧
      (RunTx sellState false
        ⟨100, some ⟨1, 1, TxData.sellCoin "SEL" 1014138929 GetBaseCoin, 0, 0, some 1, 1⟩⟩ 0 0).state.balances 1
          GetBaseCoin
        = sellState.balances 1 GetBaseCoin
          + CalculateSaleReturn
              ((sellState.coins "SEL").volume
                - CalculateSaleAmount (sellState.coins "SEL").volume
                    (sellState.coins "SEL").reserveBalance (sellState.coins "SEL").crr
                    (1 * 1 * CommissionMultiplier))
              ((sellState.coins "SEL").reserveBalance - 1 * 1 * CommissionMultiplier)
              (sellState.coins "SEL").crr 1014138929) :=
  runTx_sellCoin_buyBase_value sellState 100 1 1 0 0 1 0 0 1 "SEL" 1014138929
    (by decide)




/-- A state with the non-base coin "BBB" whose volume is twice its reserve,
so the converted commission is twice the base-coin commission. -/
def doubleState : StateDB :=
  { wState with
    coinExistsSet := fun c => decide (c = GetBaseCoin) || decide (c = "BBB")
    coins := fun c =>
      if c = "BBB" then
        { name := "BBB", volume := 20000000000, reserveBalance := 10000000000,
          crr := 100, creator := 9 }
      else
        { name := "base", volume := 0, reserveBalance := 0, crr := 100, creator := 0 } }

/-- Counterexample to claim C3 as stated: a successful deliver-mode
DeclareCandidacy paying its fee in coin "BBB" grows the reward pool by the
converted, coin-curve commission (2 * 10^10), not by
commission_in_base = gas_price * gas * 10^9 = 10^10. -/
theorem runTx_pool_conversion_counterexample :
    (RunTx doubleState false
      ⟨100, some ⟨1, 1, TxData.declareCandidacy 3 (List.replicate 32 7) 10 "BBB" 5,
        0, 0, some 1, 10⟩⟩ 0 5).resp.code = Code.OK ∧
    (RunTx doubleState false
      ⟨100, some ⟨1, 1, TxData.declareCandidacy 3 (List.replicate 32 7) 10 "BBB" 5,
        0, 0, some 1, 10⟩⟩ 0 5).rewardPull ≠ 0 + 1 * 10 * CommissionMultiplier := by
  refine ⟨by decide, by decide⟩

theorem runSend_ok_pool (context : StateDB) (tx : Transaction) (sender : Address)
    (pool : Int) (toAddr : Address) (coin : CoinSymbol) (v : Int) :
    (runSend context false tx sender pool toAddr coin v).resp.code = Code.OK →
    (runSend context false tx sender pool toAddr coin v).rewardPull
      = pool + commissionInBase tx := by
  unfold runSend
  simp only [Bool.false_eq_true, if_false, ite_false]
  repeat' split
  all_goals intro h2
  all_goals first
    | (simp at h2; done)
    | rfl

set_option maxHeartbeats 4000000 in
theorem runSellCoin_ok_pool (context : StateDB) (tx : Transaction) (sender : Address)
    (pool : Int) (cs : CoinSymbol) (v : Int) (cb : CoinSymbol) :
    (runSellCoin context false tx sender pool cs v cb).resp.code = Code.OK →
    (runSellCoin context false tx sender pool cs v cb).rewardPull
      = pool + commissionInBase tx := by
  unfold runSellCoin
  simp only [Bool.false_eq_true, if_false, ite_false]
  repeat' split
  all_goals intro h2
  all_goals first
    | (simp at h2; done)
    | rfl

set_option maxHeartbeats 4000000 in
theorem runBuyCoin_ok_pool (context : StateDB) (tx : Transaction) (sender : Address)
    (pool : Int) (cb : CoinSymbol) (v : Int) (cs : CoinSymbol) :
    (runBuyCoin context false tx sender pool cb v cs).resp.code = Code.OK →
    (runBuyCoin context false tx sender pool cb v cs).rewardPull
      = pool + commissionInBase tx := by
  unfold runBuyCoin runBuyCoinFinish
  simp only [Bool.false_eq_true, if_false, ite_false]
  repeat' split
  all_goals intro h2
  all_goals first
    | (simp at h2; done)
    | rfl

theorem runRedeemCheck_ok_pool (context : StateDB) (tx : Transaction) (sender : Address)
    (pool : Int) (blk : Nat) (rc : Option CheckData) (rp : Option PubKey) :
    (runRedeemCheck context false tx sender pool blk rc rp).resp.code = Code.OK →
    (runRedeemCheck context false tx sender pool blk rc rp).rewardPull
      = pool + commissionInBase tx := by
  unfold runRedeemCheck
  simp only [Bool.false_eq_true, if_false, ite_false]
  repeat' split
  all_goals intro h2
  all_goals first
    | (simp at h2; done)
    | rfl

theorem runDeclareCandidacy_ok_pool (context : StateDB) (tx : Transaction)
    (sender : Address) (pool : Int) (blk : Nat) (a : Address) (pk : PubKey)
    (cm : Nat) (coin : CoinSymbol) (st : Int) :
    (runDeclareCandidacy context false tx sender pool blk a pk cm coin st).resp.code
      = Code.OK →
    (runDeclareCandidacy context false tx sender pool blk a pk cm coin st).rewardPull
      = pool + (if coin ≠ GetBaseCoin then
          CalculateSaleAmount (context.coins coin).volume
            (context.coins coin).reserveBalance (context.coins coin).crr
            (commissionInBase tx)
        else commissionInBase tx) := by
  unfold runDeclareCandidacy
  simp only [Bool.false_eq_true, if_false, ite_false]
  repeat' split
  all_goals intro h2
  all_goals first
    | (simp at h2; done)
    | rfl

theorem runDelegate_ok_pool (context : StateDB) (tx : Transaction)
    (sender : Address) (pool : Int) (pk : PubKey) (coin : CoinSymbol) (st : Int) :
    (runDelegate context false tx sender pool pk coin st).resp.code = Code.OK →
    (runDelegate context false tx sender pool pk coin st).rewardPull
      = pool + (if coin ≠ GetBaseCoin then
          CalculateSaleAmount (context.coins coin).volume
            (context.coins coin).reserveBalance (context.coins coin).crr
            (commissionInBase tx)
        else commissionInBase tx) := by
  unfold runDelegate
  simp only [Bool.false_eq_true, if_false, ite_false]
  repeat' split
  all_goals intro h2
  all_goals first
    | (simp at h2; done)
    | rfl

/-- Claim C3, amended: on a successful deliver-mode execution, the reward pool
grows by commission_in_base = gas_price * gas * 10^9 for Send, SellCoin,
BuyCoin and RedeemCheck, but for DeclareCandidacy and Delegate it grows by
the payment-coin-curve converted commission (equal to commission_in_base only
when the fee coin is the base coin). -/
theorem runTx_pool_delta_by_type (context : StateDB) (len : Nat)
    (tx : Transaction) (pool : Int) (blk : Nat) :
    (∀ toAddr coin v, tx.data = TxData.send toAddr coin v →
      (RunTx context false ⟨len, some tx⟩ pool blk).resp.code = Code.OK →
      (RunTx context false ⟨len, some tx⟩ pool blk).rewardPull
        = pool + commissionInBase tx) ∧
    (∀ cs v cb, tx.data = TxData.sellCoin cs v cb →
      (RunTx context false ⟨len, some tx⟩ pool blk).resp.code = Code.OK →
      (RunTx context false ⟨len, some tx⟩ pool blk).rewardPull
        = pool + commissionInBase tx) ∧
    (∀ cb v cs, tx.data = TxData.buyCoin cb v cs →
      (RunTx context false ⟨len, some tx⟩ pool blk).resp.code = Code.OK →
      (RunTx context false ⟨len, some tx⟩ pool blk).rewardPull
        = pool + commissionInBase tx) ∧
    (∀ rc rp, tx.data = TxData.redeemCheck rc rp →
      (RunTx context false ⟨len, some tx⟩ pool blk).resp.code = Code.OK →
      (RunTx context false ⟨len, some tx⟩ pool blk).rewardPull
        = pool + commissionInBase tx) ∧
    (∀ a pk cm coin st, tx.data = TxData.declareCandidacy a pk cm coin st →
      (RunTx context false ⟨len, some tx⟩ pool blk).resp.code = Code.OK →
      (RunTx context false ⟨len, some tx⟩ pool blk).rewardPull
        = pool + (if coin ≠ GetBaseCoin then
            CalculateSaleAmount (context.coins coin).volume
              (context.coins coin).reserveBalance (context.coins coin).crr
              (commissionInBase tx)
          else commissionInBase tx)) ∧
    (∀ pk coin st, tx.data = TxData.delegate pk coin st →
      (RunTx context false ⟨len, some tx⟩ pool blk).resp.code = Code.OK →
      (RunTx context false ⟨len, some tx⟩ pool blk).rewardPull
        = pool + (if coin ≠ GetBaseCoin then
            CalculateSaleAmount (context.coins coin).volume
              (context.coins coin).reserveBalance (context.coins coin).crr
              (commissionInBase tx)
          else commissionInBase tx)) := by
  obtain ⟨n, gp, d, pl, sd, sr, g⟩ := tx
  refine ⟨?_, ?_, ?_, ?_, ?_, ?_⟩
  · intro toAddr coin v heq
    dsimp only at heq
    subst heq
    rcases sr with _ | a0
    · unfold RunTx
      dsimp only
      repeat' split
      all_goals exact fun h2 => nomatch h2
    unfold RunTx
    dsimp only
    split
    · exact fun h2 => nomatch h2
    split
    · exact fun h2 => nomatch h2
    split
    · exact fun h2 => nomatch h2
    split
    · exact fun h2 => nomatch h2
    unfold runTxData
    apply runSend_ok_pool
  · intro cs v cb heq
    dsimp only at heq
    subst heq
    rcases sr with _ | a0
    · unfold RunTx
      dsimp only
      repeat' split
      all_goals exact fun h2 => nomatch h2
    unfold RunTx
    dsimp only
    split
    · exact fun h2 => nomatch h2
    split
    · exact fun h2 => nomatch h2
    split
    · exact fun h2 => nomatch h2
    split
    · exact fun h2 => nomatch h2
    unfold runTxData
    apply runSellCoin_ok_pool
  · intro cb v cs heq
    dsimp only at heq
    subst heq
    rcases sr with _ | a0
    · unfold RunTx
      dsimp only
      repeat' split
      all_goals exact fun h2 => nomatch h2
    unfold RunTx
    dsimp only
    split
    · exact fun h2 => nomatch h2
    split
    · exact fun h2 => nomatch h2
    split
    · exact fun h2 => nomatch h2
    split
    · exact fun h2 => nomatch h2
    unfold runTxData
    apply runBuyCoin_ok_pool
  · intro rc rp heq
    dsimp only at heq
    subst heq
    rcases sr with _ | a0
    · unfold RunTx
      dsimp only
      repeat' split
      all_goals exact fun h2 => nomatch h2
    unfold RunTx
    dsimp only
    split
    · exact fun h2 => nomatch h2
    split
    · exact fun h2 => nomatch h2
    split
    · exact fun h2 => nomatch h2
    split
    · exact fun h2 => nomatch h2
    unfold runTxData
    apply runRedeemCheck_ok_pool
  · intro a pk cm coin st heq
    dsimp only at heq
    subst heq
    rcases sr with _ | a0
    · unfold RunTx
      dsimp only
      repeat' split
      all_goals exact fun h2 => nomatch h2
    unfold RunTx
    dsimp only
    split
    · exact fun h2 => nomatch h2
    split
    · exact fun h2 => nomatch h2
    split
    · exact fun h2 => nomatch h2
    split
    · exact fun h2 => nomatch h2
    unfold runTxData
    apply runDeclareCandidacy_ok_pool
  · intro pk coin st heq
    dsimp only at heq
    subst heq
    rcases sr with _ | a0
    · unfold RunTx
      dsimp only
      repeat' split
      all_goals exact fun h2 => nomatch h2
    unfold RunTx
    dsimp only
    split
    · exact fun h2 => nomatch h2
    split
    · exact fun h2 => nomatch h2
    split
    · exact fun h2 => nomatch h2
    split
    · exact fun h2 => nomatch h2
    unfold runTxData
    apply runDelegate_ok_pool

/-- Witness for the amended claim C3: the counterexample's DeclareCandidacy
run grows the pool by the converted commission of coin "BBB". -/
theorem runTx_pool_delta_by_type_witness :
    (RunTx doubleState false
      ⟨100, some ⟨1, 1, TxData.declareCandidacy 3 (List.replicate 32 7) 10 "BBB" 5,
        0, 0, some 1, 10⟩⟩ 0 5).rewardPull
      = 0 + (if ("BBB" : CoinSymbol) ≠ GetBaseCoin then
          CalculateSaleAmount (doubleState.coins "BBB").volume
            (doubleState.coins "BBB").reserveBalance (doubleState.coins "BBB").crr
            (commissionInBase ⟨1, 1, TxData.declareCandidacy 3 (List.replicate 32 7) 10 "BBB" 5,
              0, 0, some 1, 10⟩)
        else commissionInBase ⟨1, 1, TxData.declareCandidacy 3 (List.replicate 32 7) 10 "BBB" 5,
              0, 0, some 1, 10⟩) :=
  (runTx_pool_delta_by_type doubleState 100
    ⟨1, 1, TxData.declareCandidacy 3 (List.replicate 32 7) 10 "BBB" 5, 0, 0, some 1, 10⟩
    0 5).2.2.2.2.1 3 (List.replicate 32 7) 10 "BBB" 5 rfl (by decide)


end Minter
